import Mathlib

/-!
Shallow embedding of the Expressora landmark-streaming pipeline
(`src/backend/python/server/expressora_server.py` and
`src/backend/python/server/landmark_buffer.py`).

Numeric landmark coordinates, confidences and timestamps are modelled as
rationals; Euclidean distances (`np.linalg.norm`) are real-valued via
`Real.sqrt`.  The external classifier (`MockClassifier.classify_hands` /
`classify_face`) is modelled as a parameter `Frame → Option String × ℚ`
giving the (label, confidence) pair the classifier would return for a frame.
The per-frame body of `ExpressoraTranslationServicer.StreamLandmarks` is the
function `stepFrame`; the Python local variable `gloss_label`/`gloss_confidence`
(which may be read before assignment, raising `UnboundLocalError`) is modelled
by a `GlossVar := Option (Option String × ℚ)` value, `none` meaning
"never assigned"; reading it unassigned produces the `Except.error` branch,
matching the `except` handler that sets gRPC INTERNAL status.
-/

namespace Expressora

/-- Recognition event kinds, from `expressora_pb2.RecognitionEvent.Type`. -/
inductive EType
  | GLOSS
  | TONE
  | HANDS_DOWN
  deriving DecidableEq, Repr

/-- A `RecognitionEvent`: type, label and confidence. -/
structure Event where
  type : EType
  label : String
  confidence : ℚ
  deriving DecidableEq, Repr

/-- A `LandmarkFrame`: flat hand and face landmark sequences, plus the frame's
arrival time (`current_time = time.time()` taken when the frame is received). -/
structure Frame where
  hands : List ℚ
  face : List ℚ
  t : ℚ
  deriving DecidableEq, Repr

/-- Effective wrist y-coordinate used by `HandsDownDetector.check`
(`landmark_buffer.py` lines 124-130): index 1 of the flat array, and when a
second hand block is present (length ≥ 63) the larger of the two wrist-y
values (second wrist y at index 64 when it exists). -/
def effectiveWristY (hand_landmarks : List ℚ) : ℚ :=
  let wrist_y := if 1 < hand_landmarks.length then hand_landmarks.getD 1 0 else 0
  if 63 ≤ hand_landmarks.length then
    max wrist_y (if 64 < hand_landmarks.length then hand_landmarks.getD 64 0 else wrist_y)
  else wrist_y

/-- `HandsDownDetector.check` (`landmark_buffer.py` lines 104-145), returning
(fired, new `hands_down_start`).  Absent/short data resets the timer; wrist-y
strictly above `threshold_y` starts or continues the timer; the detection fires
when the elapsed time strictly exceeds `duration_threshold` (no auto-reset). -/
def hdCheck (threshold_y duration_threshold : ℚ) (start : Option ℚ)
    (hand_landmarks : List ℚ) (current_time : ℚ) : Bool × Option ℚ :=
  if hand_landmarks.length < 3 then (false, none)
  else
    if threshold_y < effectiveWristY hand_landmarks then
      match start with
      | none => (false, some current_time)
      | some s =>
        if duration_threshold < current_time - s then (true, some s) else (false, some s)
    else (false, none)

/-- Orchestrator loop for hands-down detection (`expressora_server.py` lines
109-120): run `check` on each frame's raw hand data with thresholds 0.9 and
1.5 s; on a positive detection, count one HANDS_DOWN emission and reset the
detector.  Returns the final timer state and the number of detections. -/
def hdRun (start : Option ℚ) : List (List ℚ × ℚ) → Option ℚ × ℕ
  | [] => (start, 0)
  | (hl, t) :: rest =>
    let r := hdCheck (9 / 10) (3 / 2) start hl t
    let start' := if r.1 then none else r.2
    let tail := hdRun start' rest
    (tail.1, (if r.1 then 1 else 0) + tail.2)

/-- Group a flat coordinate list into (x, y, z) triplets, dropping a trailing
incomplete triplet (the Python loops step through indices 0, 3, …, 60 with a
`j + 2 < len` bound). -/
def toTriplets : List ℚ → List (ℚ × ℚ × ℚ)
  | x :: y :: z :: rest => (x, y, z) :: toTriplets rest
  | _ => []

/-- Euclidean distance between two 3-d points (`np.linalg.norm` of the
difference vector). -/
noncomputable def dist3 (p q : ℚ × ℚ × ℚ) : ℝ :=
  Real.sqrt ((((p.1 - q.1 : ℚ) : ℝ)) ^ 2 + (((p.2.1 - q.2.1 : ℚ) : ℝ)) ^ 2 +
    (((p.2.2 - q.2.2 : ℚ) : ℝ)) ^ 2)

/-- `ExpressoraTranslationServicer._calculate_hand_span` (lines 57-72):
Euclidean distance from the wrist triplet (indices 0-2) to the middle-finger
tip triplet (indices 36-38); 0.0 for chunks shorter than 39. -/
noncomputable def calculateHandSpan (hand_chunk : List ℚ) : ℝ :=
  if hand_chunk.length < 39 then 0
  else
    dist3 (hand_chunk.getD 0 0, hand_chunk.getD 1 0, hand_chunk.getD 2 0)
      (hand_chunk.getD 36 0, hand_chunk.getD 37 0, hand_chunk.getD 38 0)

/-- Density check (lines 132-144): some 63-float hand sub-block has at least
15 coordinates of absolute value strictly greater than 0.001.  Sub-blocks that
would run past the end of the list are skipped (`continue`). -/
def validHandDetected (hand_landmarks : List ℚ) (hand_count : ℕ) : Bool :=
  (List.range hand_count).any fun i =>
    if hand_landmarks.length < i * 63 + 63 then false
    else
      decide (15 ≤ ((hand_landmarks.drop (i * 63)).take 63).countP
        (fun x => decide ((1 : ℚ) / 1000 < |x|)))

/-- Geometric span check (lines 155-177): some hand sub-block (the loop runs
over every sub-block, whatever its density) has wrist-to-fingertip span at
least 0.08. -/
def validSpanFound (hand_landmarks : List ℚ) (hand_count : ℕ) : Prop :=
  ∃ i < hand_count, ¬hand_landmarks.length < i * 63 + 63 ∧
    (8 : ℝ) / 100 ≤ calculateHandSpan ((hand_landmarks.drop (i * 63)).take 63)

/-- Sum of triplet-wise Euclidean distances over paired triplets
(the inner `for j in range(0, 63, 3)` loop of lines 196-202). -/
noncomputable def tripletSumDist : List ((ℚ × ℚ × ℚ) × (ℚ × ℚ × ℚ)) → ℝ
  | [] => 0
  | p :: ps => dist3 p.1 p.2 + tripletSumDist ps

/-- Displacement data for one matched pair of 63-float hand slices: total
triplet displacement and the number of triplets compared. -/
noncomputable def handPairDisp (cur prev : List ℚ) : ℝ × ℕ :=
  let z := (toTriplets cur).zip (toTriplets prev)
  (tripletSumDist z, z.length)

/-- Motion accumulation over matching hand slots (lines 184-202): hands
`i < min(hand_count, len(prev) // 63)`, skipping slots whose 63-float slice
would run past either list.  Returns (total_displacement, landmark_count). -/
noncomputable def motionData (cur prev : List ℚ) (hand_count : ℕ) : ℝ × ℕ :=
  (List.range (min hand_count (prev.length / 63))).foldl
    (fun acc i =>
      if cur.length < i * 63 + 63 ∨ prev.length < i * 63 + 63 then acc
      else
        ((handPairDisp ((cur.drop (i * 63)).take 63) ((prev.drop (i * 63)).take 63)).1 + acc.1,
          (handPairDisp ((cur.drop (i * 63)).take 63) ((prev.drop (i * 63)).take 63)).2 + acc.2))
    (0, 0)

/-- `hands_moved` (lines 181-213): defaults to true when there is no previous
snapshot or no triplet was compared; otherwise true iff the average
per-landmark displacement is at least 0.01. -/
def handsMoved (cur : List ℚ) (prevOpt : Option (List ℚ)) (hand_count : ℕ) : Prop :=
  match prevOpt with
  | none => True
  | some prev =>
    if (motionData cur prev hand_count).2 = 0 then True
    else (1 : ℝ) / 100 ≤ (motionData cur prev hand_count).1 /
      ((motionData cur prev hand_count).2 : ℝ)

/-- Python truthiness of an optional string value (`if gloss_label and …`):
`None` and the empty string are falsy. -/
def strTruthy : Option String → Bool
  | none => false
  | some s => !s.isEmpty

/-- `len(set(labels)) == 1` for a non-empty list of labels. -/
def allSame : List String → Bool
  | [] => true
  | x :: xs => xs.all (· == x)

/-- Result of the multi-frame gloss validation block. -/
structure GlossStepResult where
  buffer : List (String × ℚ)
  event : Option Event
  yielded : Bool
  deriving DecidableEq, Repr

/-- Multi-frame gloss validation (lines 239-271), entered once the confidence
gate has passed: append the prediction, trim the buffer to the last 5 entries,
then, with at least 3 entries, emit a GLOSS event (validated label = first of
the last three, confidence = current) and clear the buffer when the last three
labels agree, or just clear the buffer when they do not; with fewer than 3
entries, keep accumulating. -/
def glossBufferStep (buffer : List (String × ℚ)) (gloss_label : String)
    (gloss_confidence : ℚ) : GlossStepResult :=
  let buf := buffer ++ [(gloss_label, gloss_confidence)]
  let buf := if 5 < buf.length then buf.tail else buf
  if 3 ≤ buf.length then
    let recent := (buf.drop (buf.length - 3)).map Prod.fst
    if allSame recent then
      ⟨[], some ⟨EType.GLOSS, recent.headD "", gloss_confidence⟩, true⟩
    else ⟨[], none, false⟩
  else ⟨buf, none, false⟩

/-- Servicer-held mutable state (`ExpressoraTranslationServicer.__init__`,
lines 40-55).  Note that this state lives on the singleton servicer object,
not on an individual stream. -/
structure SState where
  recent_gloss_detections : List (String × ℚ)
  previous_hand_landmarks : Option (List ℚ)
  last_tone_event : Option String
  last_gloss_yielded : Bool
  hands_down_start : Option ℚ
  deriving DecidableEq, Repr

/-- State created by `__init__`: empty buffer, no previous landmarks, no last
tone, flag false, no hands-down timer. -/
def initState : SState := ⟨[], none, none, false, none⟩

/-- What `StreamLandmarks` does to servicer state when a new stream opens
(line 87): only `hands_down_detector.reset()`; every other field persists. -/
def streamStart (st : SState) : SState := { st with hands_down_start := none }

/-- The Python local variable pair `gloss_label, gloss_confidence` of
`StreamLandmarks`: `none` when not yet assigned in this call. -/
abbrev GlossVar := Option (Option String × ℚ)

open Classical in
/-- Hand-validation / motion chain of one frame (lines 122-233).  Returns the
new `gloss_label` variable state, the new `previous_hand_landmarks`, and
whether `classify_hands` was invoked on this frame.  With no hand block
(`hand_count == 0`) everything is left untouched; a density or span failure
sets the gloss variable to (None, 0.0) and clears the previous snapshot; past
validation the snapshot is unconditionally replaced
(`hand_landmarks.copy() if hand_landmarks else None`) and the classifier runs
exactly when the motion gate passes. -/
noncomputable def glossPhase (gClf : Frame → Option String × ℚ)
    (prev : Option (List ℚ)) (gv : GlossVar) (fr : Frame) :
    GlossVar × Option (List ℚ) × Bool :=
  if fr.hands.length / 63 = 0 then (gv, prev, false)
  else if validHandDetected fr.hands (fr.hands.length / 63) = false then
    (some (none, 0), none, false)
  else if ¬validSpanFound fr.hands (fr.hands.length / 63) then
    (some (none, 0), none, false)
  else if handsMoved fr.hands prev (fr.hands.length / 63) then
    (some (gClf fr), if fr.hands.isEmpty then none else some fr.hands, true)
  else
    (some (none, 0), if fr.hands.isEmpty then none else some fr.hands, false)

/-- Tone block of one frame (lines 273-290).  Runs only when
`last_gloss_yielded` is set; accepts a truthy label with confidence ≥ 0.80;
emits only when the label differs from `last_tone_event`, updating it on
emission; the flag is always consumed.  Returns
(tone events, new `last_tone_event`, new `last_gloss_yielded`, whether
`classify_face` was invoked). -/
def tonePhase (tClf : Frame → Option String × ℚ) (last_tone : Option String)
    (flag : Bool) (fr : Frame) : List Event × Option String × Bool × Bool :=
  if flag then
    let r := tClf fr
    if strTruthy r.1 = true ∧ 8 / 10 ≤ r.2 then
      if last_tone ≠ some (r.1.getD "") then
        ([⟨EType.TONE, r.1.getD "", r.2⟩], some (r.1.getD ""), false, true)
      else ([], last_tone, false, true)
    else ([], last_tone, false, true)
  else ([], last_tone, flag, false)

/-- Per-frame observable output: emitted events in order, and whether the
hand and face classifiers were invoked on this frame. -/
structure StepOut where
  events : List Event
  glossClassified : Bool
  toneClassified : Bool
  deriving DecidableEq, Repr

/-- HANDS_DOWN events yielded on a frame, from the detector's check result
(lines 111-119): exactly one event with label "hands_down" and confidence 1.0
on a positive detection. -/
def hdEventsOf (hd : Bool × Option ℚ) : List Event :=
  if hd.1 then [⟨EType.HANDS_DOWN, "hands_down", 1⟩] else []

/-- Detector timer state after a frame: the check's new start time, reset on a
positive detection (`self.hands_down_detector.reset()` at line 120). -/
def hdStartAfter (hd : Bool × Option ℚ) : Option ℚ :=
  if hd.1 then none else hd.2

/-- The remainder of the per-frame loop body after the hand-validation chain
(lines 236-290), taking the hands-down check result `hd` and the chain result
`g`: the read of `gloss_label` at line 236 (an `Except.error` when it was
never assigned — Python's `UnboundLocalError`, caught by the handler which
sets gRPC INTERNAL; the error carries the events already yielded this frame
and the state as mutated so far), then the confidence-gated multi-frame gloss
validation and the tone block.  Events are ordered HANDS_DOWN, GLOSS, TONE. -/
def glossGate (tClf : Frame → Option String × ℚ) (st : SState)
    (hd : Bool × Option ℚ) (g : GlossVar × Option (List ℚ) × Bool) (fr : Frame) :
    Except (List Event × SState) (SState × GlossVar × StepOut) :=
  match g.1 with
  | none => Except.error (hdEventsOf hd, { st with hands_down_start := hdStartAfter hd })
  | some glc =>
    let gr :=
      if strTruthy glc.1 = true ∧ 9 / 10 ≤ glc.2 then
        glossBufferStep st.recent_gloss_detections (glc.1.getD "") glc.2
      else ⟨st.recent_gloss_detections, none, false⟩
    let flag := st.last_gloss_yielded || gr.yielded
    let tn := tonePhase tClf st.last_tone_event flag fr
    Except.ok
      (⟨gr.buffer, g.2.1, tn.2.1, tn.2.2.1, hdStartAfter hd⟩,
        some glc,
        ⟨hdEventsOf hd ++ gr.event.toList ++ tn.1, g.2.2, tn.2.2.2⟩)

/-- One iteration of the `for landmark_frame in request_iterator` loop of
`StreamLandmarks` (lines 91-290): hands-down check (with reset after a
yielded HANDS_DOWN event), the hand-validation/motion chain, then the gloss
confidence gate, multi-frame validation and tone block via `glossGate`. -/
noncomputable def stepFrame (gClf tClf : Frame → Option String × ℚ) (st : SState)
    (gv : GlossVar) (fr : Frame) :
    Except (List Event × SState) (SState × GlossVar × StepOut) :=
  glossGate tClf st (hdCheck (9 / 10) (3 / 2) st.hands_down_start fr.hands fr.t)
    (glossPhase gClf st.previous_hand_landmarks gv fr) fr

/-- Process a whole frame sequence, accumulating emitted events in order.
The boolean result is true when the stream terminated through the exception
handler (gRPC INTERNAL). -/
noncomputable def runFrames (gClf tClf : Frame → Option String × ℚ) :
    SState → GlossVar → List Frame → SState × List Event × Bool
  | st, _, [] => (st, [], false)
  | st, gv, fr :: rest =>
    match stepFrame gClf tClf st gv fr with
    | Except.error e => (e.2, e.1, true)
    | Except.ok r =>
      let tail := runFrames gClf tClf r.1 r.2.1 rest
      (tail.1, r.2.2.events ++ tail.2.1, tail.2.2)

/-- A full `StreamLandmarks` call on one connection: reset the hands-down
detector, start with an unassigned `gloss_label` local, process the frames. -/
noncomputable def streamLandmarks (gClf tClf : Frame → Option String × ℚ)
    (st : SState) (frames : List Frame) : SState × List Event × Bool :=
  runFrames gClf tClf (streamStart st) none frames

/-- Repeated (x, y, z) coordinate triplets: helper for concrete test hands. -/
def repTriples : ℕ → ℚ → ℚ → ℚ → List ℚ
  | 0, _, _, _ => []
  | n + 1, a, b, c => a :: b :: c :: repTriples n a b c

/-- A concrete 63-float hand block from three triplets: wrist triplet `w`
(indices 0-2), eleven filler triplets, middle-fingertip triplet `m`
(indices 36-38), eight more filler triplets. -/
def hand3 (w f m : ℚ × ℚ × ℚ) : List ℚ :=
  w.1 :: w.2.1 :: w.2.2 ::
    (repTriples 11 f.1 f.2.1 f.2.2 ++
      (m.1 :: m.2.1 :: m.2.2 :: repTriples 8 f.1 f.2.1 f.2.2))

/-- A concrete hand block with wrist (w, 1/2, 1/2) and all other landmarks at
(r, 1/2, 1/2): its span is |w - r| and all 63 coordinates are non-zero when
w, r are. -/
def uHand (w r : ℚ) : List ℚ := hand3 (w, 1 / 2, 1 / 2) (r, 1 / 2, 1 / 2) (r, 1 / 2, 1 / 2)

/-- A concrete frame with a single hand and no face data. -/
def frameV (w r t : ℚ) : Frame := ⟨uHand w r, [], t⟩

/-- Hand classifier stub returning ("HELLO", 0.95) on every frame. -/
def gClfHello : Frame → Option String × ℚ := fun _ => (some "HELLO", 19 / 20)

/-- Hand classifier stub returning (None, 0.0) on every frame. -/
def gClfNone : Frame → Option String × ℚ := fun _ => (none, 0)

/-- Face classifier stub returning (None, 0.0) on every frame. -/
def tClfNone : Frame → Option String × ℚ := fun _ => (none, 0)

/-- A face classifier that always reports ANGRY with confidence 0.9. -/
def tClfAngry : Frame → Option String × ℚ := fun _ => (some "ANGRY", 9 / 10)

/-- Concrete valid moving frames: consecutive frames differ by 0.1 in every
x-coordinate, so every landmark moves by exactly 0.1. -/
def F0 : Frame := frameV (1 / 2) (3 / 5) 0

/-- Second frame of the concrete trace. -/
def F1 : Frame := frameV (3 / 5) (7 / 10) 1

/-- Third frame of the concrete trace. -/
def F2 : Frame := frameV (7 / 10) (4 / 5) 2

/-- Fourth frame of the concrete trace. -/
def F3 : Frame := frameV (4 / 5) (9 / 10) 3

/-- A frame with an empty hands sequence. -/
def Fempty : Frame := ⟨[], [], 4⟩

/-- Servicer state after processing `[F0]` from `initState`. -/
def st1 : SState := ⟨[("HELLO", 19 / 20)], some F0.hands, none, false, none⟩

/-- Servicer state after processing `[F0, F1]` from `initState`. -/
def st2 : SState := ⟨[("HELLO", 19 / 20), ("HELLO", 19 / 20)], some F1.hands, none, false, none⟩

/-- Servicer state after processing `[F0, F1, F2]` from `initState` (the GLOSS
emission on `F2` clears the buffer). -/
def st3 : SState := ⟨[], some F2.hands, none, false, none⟩

/-- A 63-float hand block passing the density check (every coordinate 1/2)
whose span is 0 (wrist equals fingertip): a "ghost" by the span criterion. -/
def blockDense : List ℚ := uHand (1 / 2) (1 / 2)

/-- A 63-float hand block failing the density check (single non-zero
coordinate) whose span is 0.9 (fingertip x = 9/10, wrist at the origin). -/
def blockGhost : List ℚ := hand3 (0, 0, 0) (0, 0, 0) (9 / 10, 0, 0)

/-- A two-hand frame: first sub-block passes density but has span 0, second
sub-block fails density but has span 0.9. -/
def frameGhostPair : Frame := ⟨blockDense ++ blockGhost, [], 0⟩

/-- A one-hand frame whose only sub-block passes density but has span 0. -/
def frameAllGhost : Frame := ⟨blockDense, [], 0⟩

/-- A one-hand frame of all zeros: fails the density check. -/
def frameZeros : Frame := ⟨hand3 (0, 0, 0) (0, 0, 0) (0, 0, 0), [], 0⟩

/-- Predicate on (hand landmarks, timestamp) pairs used for the hands-down
dwell claims: landmark data long enough to be considered, with effective
wrist-y strictly above the 0.9 threshold. -/
def goodFrame (p : List ℚ × ℚ) : Prop :=
  3 ≤ p.1.length ∧ 9 / 10 < effectiveWristY p.1

/-- Labels of the TONE events of an event list, in emission order. -/
def toneLabels (evs : List Event) : List String :=
  (evs.filter fun e => e.type == EType.TONE).map Event.label

/-- Tone-dedup soundness of a label sequence relative to a `last_tone_event`
value: each emitted label differs from the state at its emission time. -/
def okSeq : Option String → List String → Prop
  | _, [] => True
  | lt, l :: ls => some l ≠ lt ∧ okSeq (some l) ls

/-- The density predicate of `validHandDetected`. -/
def densP : ℚ → Bool := fun x => decide ((1 : ℚ) / 1000 < |x|)

/-! ### Structural lemmas about the concrete hand builders -/

lemma repTriples_length (n : ℕ) (a b c : ℚ) : (repTriples n a b c).length = 3 * n := by
  induction n with
  | zero => rfl
  | succ k ih => simp [repTriples, ih]; ring

lemma hand3_length (w f m : ℚ × ℚ × ℚ) : (hand3 w f m).length = 63 := by
  simp [hand3, repTriples_length]

lemma uHand_length (w r : ℚ) : (uHand w r).length = 63 := hand3_length _ _ _

lemma toTriplets_repTriples_append (n : ℕ) (a b c : ℚ) (l : List ℚ) :
    toTriplets (repTriples n a b c ++ l) = List.replicate n (a, b, c) ++ toTriplets l := by
  induction n with
  | zero => rfl
  | succ k ih => simp [repTriples, toTriplets, ih, List.replicate]

lemma toTriplets_hand3 (w f m : ℚ × ℚ × ℚ) :
    toTriplets (hand3 w f m) =
      (w.1, w.2.1, w.2.2) :: (List.replicate 11 (f.1, f.2.1, f.2.2) ++
        (m.1, m.2.1, m.2.2) :: List.replicate 8 (f.1, f.2.1, f.2.2)) := by
  simp [hand3, toTriplets, toTriplets_repTriples_append]

lemma countP_repTriples (p : ℚ → Bool) (n : ℕ) (a b c : ℚ) :
    (repTriples n a b c).countP p = n * ([a, b, c].countP p) := by
  induction n with
  | zero => simp [repTriples]
  | succ k ih =>
    simp only [repTriples, List.countP_cons, ih, List.countP_nil]
    ring

lemma countP_hand3 (p : ℚ → Bool) (w f m : ℚ × ℚ × ℚ) :
    (hand3 w f m).countP p =
      [w.1, w.2.1, w.2.2].countP p + [m.1, m.2.1, m.2.2].countP p +
      19 * ([f.1, f.2.1, f.2.2].countP p) := by
  simp only [hand3, List.countP_cons, List.countP_append, countP_repTriples, List.countP_nil]
  ring

lemma repTriples_append_getD (n : ℕ) (a b c : ℚ) (l : List ℚ) (k : ℕ) (d : ℚ) :
    (repTriples n a b c ++ l).getD (3 * n + k) d = l.getD k d := by
  induction n with
  | zero => simp [repTriples]
  | succ j ih =>
    have h3 : 3 * (j + 1) + k = (3 * j + k) + 1 + 1 + 1 := by ring
    simp only [repTriples, List.cons_append, h3, List.getD_cons_succ]
    exact ih

lemma hand3_getD36 (w f m : ℚ × ℚ × ℚ) (d : ℚ) : (hand3 w f m).getD 36 d = m.1 := by
  have := repTriples_append_getD 11 f.1 f.2.1 f.2.2
    (m.1 :: m.2.1 :: m.2.2 :: repTriples 8 f.1 f.2.1 f.2.2) 0 d
  simpa [hand3, List.getD_cons_succ, List.getD_cons_zero] using this

lemma hand3_getD37 (w f m : ℚ × ℚ × ℚ) (d : ℚ) : (hand3 w f m).getD 37 d = m.2.1 := by
  have := repTriples_append_getD 11 f.1 f.2.1 f.2.2
    (m.1 :: m.2.1 :: m.2.2 :: repTriples 8 f.1 f.2.1 f.2.2) 1 d
  simpa [hand3, List.getD_cons_succ, List.getD_cons_zero] using this

lemma hand3_getD38 (w f m : ℚ × ℚ × ℚ) (d : ℚ) : (hand3 w f m).getD 38 d = m.2.2 := by
  have := repTriples_append_getD 11 f.1 f.2.1 f.2.2
    (m.1 :: m.2.1 :: m.2.2 :: repTriples 8 f.1 f.2.1 f.2.2) 2 d
  simpa [hand3, List.getD_cons_succ, List.getD_cons_zero] using this

lemma hand3_getD0 (w f m : ℚ × ℚ × ℚ) (d : ℚ) : (hand3 w f m).getD 0 d = w.1 := rfl

lemma hand3_getD1 (w f m : ℚ × ℚ × ℚ) (d : ℚ) : (hand3 w f m).getD 1 d = w.2.1 := rfl

lemma hand3_getD2 (w f m : ℚ × ℚ × ℚ) (d : ℚ) : (hand3 w f m).getD 2 d = w.2.2 := rfl

/-! ### Distance evaluation lemmas -/

lemma dist3_fst_eq (x x' y z : ℚ) : dist3 (x, y, z) (x', y, z) = |((x - x' : ℚ) : ℝ)| := by
  simp [dist3, Real.sqrt_sq_eq_abs]

lemma dist3_self (p : ℚ × ℚ × ℚ) : dist3 p p = 0 := by
  simp [dist3]

lemma abs_rat_cast_eval (q : ℚ) (h : 0 ≤ q) : |((q : ℚ) : ℝ)| = (q : ℝ) := by
  rw [abs_of_nonneg]
  exact_mod_cast h

lemma calculateHandSpan_hand3 (w f m : ℚ × ℚ × ℚ) :
    calculateHandSpan (hand3 w f m) =
      dist3 (w.1, w.2.1, w.2.2) (m.1, m.2.1, m.2.2) := by
  rw [calculateHandSpan, if_neg (by simp [hand3_length]),
    hand3_getD0, hand3_getD1, hand3_getD2, hand3_getD36, hand3_getD37, hand3_getD38]

lemma tripletSumDist_append (l₁ l₂ : List ((ℚ × ℚ × ℚ) × (ℚ × ℚ × ℚ))) :
    tripletSumDist (l₁ ++ l₂) = tripletSumDist l₁ + tripletSumDist l₂ := by
  induction l₁ with
  | nil => simp [tripletSumDist]
  | cons p ps ih => simp [tripletSumDist, ih]; ring

lemma tripletSumDist_replicate (n : ℕ) (p : (ℚ × ℚ × ℚ) × (ℚ × ℚ × ℚ)) :
    tripletSumDist (List.replicate n p) = n * dist3 p.1 p.2 := by
  induction n with
  | zero => simp [tripletSumDist]
  | succ k ih => simp [List.replicate, tripletSumDist, ih]; ring

lemma handPairDisp_hand3 (w1 f1 m1 w0 f0 m0 : ℚ × ℚ × ℚ) :
    handPairDisp (hand3 w1 f1 m1) (hand3 w0 f0 m0) =
      (dist3 (w1.1, w1.2.1, w1.2.2) (w0.1, w0.2.1, w0.2.2) +
        dist3 (m1.1, m1.2.1, m1.2.2) (m0.1, m0.2.1, m0.2.2) +
        19 * dist3 (f1.1, f1.2.1, f1.2.2) (f0.1, f0.2.1, f0.2.2), 21) := by
  rw [handPairDisp, toTriplets_hand3, toTriplets_hand3]
  rw [List.zip_cons_cons, List.zip_append (by simp), List.zip_cons_cons,
    List.zip_replicate, List.zip_replicate, min_self, min_self]
  simp only [tripletSumDist, tripletSumDist_append, tripletSumDist_replicate, Prod.mk.injEq]
  refine ⟨by ring, by simp⟩

lemma motionData_hand3 (w1 f1 m1 w0 f0 m0 : ℚ × ℚ × ℚ) :
    motionData (hand3 w1 f1 m1) (hand3 w0 f0 m0) 1 =
      (dist3 (w1.1, w1.2.1, w1.2.2) (w0.1, w0.2.1, w0.2.2) +
        dist3 (m1.1, m1.2.1, m1.2.2) (m0.1, m0.2.1, m0.2.2) +
        19 * dist3 (f1.1, f1.2.1, f1.2.2) (f0.1, f0.2.1, f0.2.2), 21) := by
  have hs1 : ((hand3 w1 f1 m1).drop (0 * 63)).take 63 = hand3 w1 f1 m1 := by
    rw [Nat.zero_mul, List.drop_zero, ← hand3_length w1 f1 m1, List.take_length]
  have hs0 : ((hand3 w0 f0 m0).drop (0 * 63)).take 63 = hand3 w0 f0 m0 := by
    rw [Nat.zero_mul, List.drop_zero, ← hand3_length w0 f0 m0, List.take_length]
  rw [motionData]
  rw [show min 1 ((hand3 w0 f0 m0).length / 63) = 1 by rw [hand3_length]; norm_num]
  rw [show List.range 1 = [0] by decide]
  rw [List.foldl_cons, List.foldl_nil]
  rw [if_neg (by simp [hand3_length])]
  rw [hs1, hs0, handPairDisp_hand3]
  simp

lemma handsMoved_uHand (w1 r1 w0 r0 : ℚ) :
    handsMoved (uHand w1 r1) (some (uHand w0 r0)) 1 ↔
      (1 : ℝ) / 100 ≤ (|((w1 - w0 : ℚ) : ℝ)| + 20 * |((r1 - r0 : ℚ) : ℝ)|) / 21 := by
  rw [show uHand w1 r1 = hand3 (w1, 1/2, 1/2) (r1, 1/2, 1/2) (r1, 1/2, 1/2) from rfl,
    show uHand w0 r0 = hand3 (w0, 1/2, 1/2) (r0, 1/2, 1/2) (r0, 1/2, 1/2) from rfl]
  simp only [handsMoved, motionData_hand3]
  rw [if_neg (by norm_num)]
  rw [dist3_fst_eq, dist3_fst_eq]
  have heq : (|((w1 - w0 : ℚ) : ℝ)| + |((r1 - r0 : ℚ) : ℝ)| + 19 * |((r1 - r0 : ℚ) : ℝ)|) /
      ((21 : ℕ) : ℝ) = (|((w1 - w0 : ℚ) : ℝ)| + 20 * |((r1 - r0 : ℚ) : ℝ)|) / 21 := by
    push_cast
    ring
  rw [heq]

/-- A displacement of exactly 0.1 on every coordinate triplet passes the
motion gate. -/
lemma handsMoved_uHand_shift (w0 r0 : ℚ) :
    handsMoved (uHand (w0 + 1/10) (r0 + 1/10)) (some (uHand w0 r0)) 1 := by
  rw [handsMoved_uHand]
  rw [show (w0 + 1/10 - w0 : ℚ) = 1/10 by ring, show (r0 + 1/10 - r0 : ℚ) = 1/10 by ring]
  rw [abs_rat_cast_eval _ (by norm_num)]
  push_cast
  norm_num

lemma not_handsMoved_uHand_same (w r : ℚ) :
    ¬handsMoved (uHand w r) (some (uHand w r)) 1 := by
  rw [handsMoved_uHand]
  norm_num

/-! ### Density-check evaluation lemmas -/

lemma densP_true (x : ℚ) (h : (1 : ℚ) / 1000 < |x|) : densP x = true :=
  decide_eq_true h

lemma densP_false (x : ℚ) (h : ¬(1 : ℚ) / 1000 < |x|) : densP x = false :=
  decide_eq_false h

lemma densP_pos (x : ℚ) (h0 : 0 < x) (h : (1 : ℚ) / 1000 < x) : densP x = true := by
  apply densP_true
  rw [abs_of_pos h0]
  exact h

lemma densP_zero : densP 0 = false := by
  apply densP_false
  rw [abs_zero]
  norm_num

lemma countP_triple_true (p : ℚ → Bool) (a b c : ℚ) (ha : p a = true) (hb : p b = true)
    (hc : p c = true) : [a, b, c].countP p = 3 := by
  rw [List.countP_cons, List.countP_cons, List.countP_cons, List.countP_nil, ha, hb, hc]
  rfl

lemma countP_triple_false (p : ℚ → Bool) (a b c : ℚ) (ha : p a = false) (hb : p b = false)
    (hc : p c = false) : [a, b, c].countP p = 0 := by
  rw [List.countP_cons, List.countP_cons, List.countP_cons, List.countP_nil, ha, hb, hc]
  rfl

lemma validHandDetected_single (hl : List ℚ) (h63 : hl.length = 63) :
    validHandDetected hl 1 = decide (15 ≤ hl.countP densP) := by
  rw [validHandDetected]
  rw [show List.range 1 = [0] by decide]
  rw [List.any_cons, List.any_nil]
  rw [if_neg (by omega)]
  rw [Nat.zero_mul, List.drop_zero, ← h63, List.take_length]
  rw [Bool.or_false]
  rfl

/-- `uHand` blocks with both parameter coordinates in (0.001, ∞) pass the
density check. -/
lemma validHandDetected_uHand (w r : ℚ) (hw0 : 0 < w) (hw : (1 : ℚ) / 1000 < w)
    (hr0 : 0 < r) (hr : (1 : ℚ) / 1000 < r) :
    validHandDetected (uHand w r) 1 = true := by
  rw [show uHand w r = hand3 (w, 1/2, 1/2) (r, 1/2, 1/2) (r, 1/2, 1/2) from rfl]
  rw [validHandDetected_single _ (hand3_length _ _ _)]
  rw [countP_hand3]
  rw [countP_triple_true densP _ _ _ (densP_pos _ hw0 hw)
    (densP_pos _ (by norm_num) (by norm_num)) (densP_pos _ (by norm_num) (by norm_num))]
  rw [countP_triple_true densP _ _ _ (densP_pos _ hr0 hr)
    (densP_pos _ (by norm_num) (by norm_num)) (densP_pos _ (by norm_num) (by norm_num))]
  decide

lemma validHandDetected_zeros : validHandDetected frameZeros.hands 1 = false := by
  rw [show frameZeros.hands = hand3 (0, 0, 0) (0, 0, 0) (0, 0, 0) from rfl]
  rw [validHandDetected_single _ (hand3_length _ _ _)]
  rw [countP_hand3]
  rw [countP_triple_false densP _ _ _ densP_zero densP_zero densP_zero]
  decide

lemma validHandDetected_pair_left (h1 h2 : List ℚ) (h63a : h1.length = 63)
    (h63b : h2.length = 63) (hd : 15 ≤ h1.countP densP) :
    validHandDetected (h1 ++ h2) 2 = true := by
  rw [validHandDetected]
  rw [show List.range 2 = [0, 1] by decide]
  rw [List.any_cons]
  have hguard : ¬(h1 ++ h2).length < 0 * 63 + 63 := by
    simp [List.length_append, h63a, h63b]
  rw [if_neg hguard]
  rw [Nat.zero_mul, List.drop_zero]
  rw [show (h1 ++ h2).take 63 = h1 by rw [← h63a, List.take_left]]
  have hdec : decide (15 ≤ h1.countP fun x => decide ((1 : ℚ) / 1000 < |x|)) = true :=
    decide_eq_true hd
  rw [hdec]
  simp

/-! ### Span-check evaluation lemmas -/

lemma validSpanFound_single (hl : List ℚ) (h63 : hl.length = 63)
    (h : (8 : ℝ) / 100 ≤ calculateHandSpan hl) : validSpanFound hl 1 := by
  refine ⟨0, by norm_num, by omega, ?_⟩
  rw [Nat.zero_mul, List.drop_zero, ← h63, List.take_length]
  exact h

lemma not_validSpanFound_single (hl : List ℚ) (h63 : hl.length = 63)
    (h : calculateHandSpan hl < (8 : ℝ) / 100) : ¬validSpanFound hl 1 := by
  rintro ⟨i, hi, -, hs⟩
  interval_cases i
  rw [Nat.zero_mul, List.drop_zero, ← h63, List.take_length] at hs
  exact absurd hs (not_le.mpr h)

/-- `uHand` blocks whose wrist and fingertip x-coordinates differ by at least
0.08 in absolute value pass the span check. -/
lemma validSpanFound_uHand (w r : ℚ) (h : (8 : ℝ) / 100 ≤ |((w - r : ℚ) : ℝ)|) :
    validSpanFound (uHand w r) 1 := by
  apply validSpanFound_single _ (hand3_length _ _ _)
  rw [calculateHandSpan_hand3, dist3_fst_eq]
  exact h

lemma not_validSpanFound_blockDense : ¬validSpanFound blockDense 1 := by
  apply not_validSpanFound_single _ (hand3_length _ _ _)
  rw [calculateHandSpan_hand3, dist3_fst_eq]
  norm_num

lemma validSpanFound_ghostPair : validSpanFound (blockDense ++ blockGhost) 2 := by
  refine ⟨1, by norm_num, ?_, ?_⟩
  · simp [List.length_append, hand3_length, blockDense, blockGhost, uHand]
  · rw [show (1 : ℕ) * 63 = 63 by norm_num]
    rw [show (63 : ℕ) = blockDense.length by simp [blockDense, uHand, hand3_length]]
    rw [List.drop_left]
    rw [show blockGhost.take blockDense.length = blockGhost by
      rw [show blockDense.length = 63 by simp [blockDense, uHand, hand3_length],
        ← show blockGhost.length = 63 by simp [blockGhost, hand3_length], List.take_length]]
    rw [show blockGhost = hand3 (0, 0, 0) (0, 0, 0) (9/10, 0, 0) from rfl]
    rw [calculateHandSpan_hand3, dist3_fst_eq]
    rw [show ((0 : ℚ) - 9/10) = -(9/10) by norm_num]
    rw [show ((-(9/10) : ℚ) : ℝ) = -(9/10) by push_cast; ring]
    rw [abs_neg, abs_of_pos (by norm_num : (0 : ℝ) < 9/10)]
    norm_num

/-! ### Hands-down detector evaluation lemmas -/

lemma effectiveWristY_hand3 (w f m : ℚ × ℚ × ℚ) :
    effectiveWristY (hand3 w f m) = w.2.1 := by
  rw [effectiveWristY]
  rw [if_pos (by simp [hand3_length])]
  rw [hand3_getD1]
  rw [if_pos (by simp [hand3_length])]
  rw [if_neg (by simp [hand3_length])]
  simp

lemma hdCheck_low (s : Option ℚ) (hl : List ℚ) (t : ℚ)
    (h : ¬(9 : ℚ) / 10 < effectiveWristY hl) :
    hdCheck (9 / 10) (3 / 2) s hl t = (false, none) := by
  rw [hdCheck.eq_def]
  rw [if_neg h]
  split <;> rfl

lemma hdCheck_uHand (s : Option ℚ) (w r t : ℚ) :
    hdCheck (9 / 10) (3 / 2) s (uHand w r) t = (false, none) := by
  rw [show uHand w r = hand3 (w, 1/2, 1/2) (r, 1/2, 1/2) (r, 1/2, 1/2) from rfl]
  apply hdCheck_low
  rw [effectiveWristY_hand3]
  norm_num

lemma hdCheck_empty (s : Option ℚ) (t : ℚ) :
    hdCheck (9 / 10) (3 / 2) s [] t = (false, none) := rfl

/-! ### glossPhase branch lemmas -/

lemma glossPhase_skip (gClf : Frame → Option String × ℚ) (prev : Option (List ℚ))
    (gv : GlossVar) (fr : Frame) (h : fr.hands.length / 63 = 0) :
    glossPhase gClf prev gv fr = (gv, prev, false) := by
  rw [glossPhase, if_pos h]

lemma glossPhase_density_fail (gClf : Frame → Option String × ℚ) (prev : Option (List ℚ))
    (gv : GlossVar) (fr : Frame) (h0 : ¬fr.hands.length / 63 = 0)
    (hv : validHandDetected fr.hands (fr.hands.length / 63) = false) :
    glossPhase gClf prev gv fr = (some (none, 0), none, false) := by
  rw [glossPhase, if_neg h0, if_pos hv]

lemma glossPhase_span_fail (gClf : Frame → Option String × ℚ) (prev : Option (List ℚ))
    (gv : GlossVar) (fr : Frame) (h0 : ¬fr.hands.length / 63 = 0)
    (hv : validHandDetected fr.hands (fr.hands.length / 63) = true)
    (hs : ¬validSpanFound fr.hands (fr.hands.length / 63)) :
    glossPhase gClf prev gv fr = (some (none, 0), none, false) := by
  rw [glossPhase, if_neg h0, if_neg (by simp [hv]), if_pos hs]

lemma glossPhase_moved (gClf : Frame → Option String × ℚ) (prev : Option (List ℚ))
    (gv : GlossVar) (fr : Frame) (h0 : ¬fr.hands.length / 63 = 0)
    (hv : validHandDetected fr.hands (fr.hands.length / 63) = true)
    (hs : validSpanFound fr.hands (fr.hands.length / 63))
    (hm : handsMoved fr.hands prev (fr.hands.length / 63)) (hne : fr.hands ≠ []) :
    glossPhase gClf prev gv fr = (some (gClf fr), some fr.hands, true) := by
  rw [glossPhase, if_neg h0, if_neg (by simp [hv]), if_neg (by simpa using hs), if_pos hm,
    if_neg (by simpa using hne)]

lemma glossPhase_static (gClf : Frame → Option String × ℚ) (prev : Option (List ℚ))
    (gv : GlossVar) (fr : Frame) (h0 : ¬fr.hands.length / 63 = 0)
    (hv : validHandDetected fr.hands (fr.hands.length / 63) = true)
    (hs : validSpanFound fr.hands (fr.hands.length / 63))
    (hm : ¬handsMoved fr.hands prev (fr.hands.length / 63)) (hne : fr.hands ≠ []) :
    glossPhase gClf prev gv fr = (some (none, 0), some fr.hands, false) := by
  rw [glossPhase, if_neg h0, if_neg (by simp [hv]), if_neg (by simpa using hs), if_neg hm,
    if_neg (by simpa using hne)]

/-! ### glossGate evaluation lemmas -/

lemma glossGate_unassigned (tClf : Frame → Option String × ℚ) (st : SState)
    (hd : Bool × Option ℚ) (pr : Option (List ℚ)) (b : Bool) (fr : Frame) :
    glossGate tClf st hd (none, pr, b) fr =
      Except.error (hdEventsOf hd, { st with hands_down_start := hdStartAfter hd }) := rfl

lemma glossGate_assigned (tClf : Frame → Option String × ℚ) (st : SState)
    (hd : Bool × Option ℚ) (glc : Option String × ℚ) (pr : Option (List ℚ)) (b : Bool)
    (fr : Frame) :
    glossGate tClf st hd (some glc, pr, b) fr =
      (let gr :=
        if strTruthy glc.1 = true ∧ 9 / 10 ≤ glc.2 then
          glossBufferStep st.recent_gloss_detections (glc.1.getD "") glc.2
        else ⟨st.recent_gloss_detections, none, false⟩
      let tn := tonePhase tClf st.last_tone_event (st.last_gloss_yielded || gr.yielded) fr
      Except.ok
        (⟨gr.buffer, pr, tn.2.1, tn.2.2.1, hdStartAfter hd⟩,
          some glc,
          ⟨hdEventsOf hd ++ gr.event.toList ++ tn.1, b, tn.2.2.2⟩)) := rfl

/-! ### Small computational facts about the gloss buffer and tone phase -/

lemma glossBufferStep_one (l : String) (c : ℚ) :
    glossBufferStep [] l c = ⟨[(l, c)], none, false⟩ := by
  simp [glossBufferStep]

lemma glossBufferStep_two (l : String) (c c' : ℚ) :
    glossBufferStep [(l, c')] l c = ⟨[(l, c'), (l, c)], none, false⟩ := by
  simp [glossBufferStep]

lemma glossBufferStep_three_same (l : String) (c1 c2 c : ℚ) :
    glossBufferStep [(l, c1), (l, c2)] l c = ⟨[], some ⟨EType.GLOSS, l, c⟩, true⟩ := by
  simp [glossBufferStep, allSame]

lemma tonePhase_flag_none (lt : Option String) (fr : Frame) :
    tonePhase tClfNone lt true fr = ([], lt, false, true) := by
  rw [tonePhase, if_pos rfl]
  rw [if_neg (by simp [tClfNone, strTruthy])]

lemma tonePhase_off (tClf : Frame → Option String × ℚ) (lt : Option String) (fr : Frame) :
    tonePhase tClf lt false fr = ([], lt, false, false) := rfl


/-! ### Concrete step evaluations -/

/-- Master evaluation: a valid, moving `frameV` frame under the HELLO
classifier reduces `stepFrame` to `glossGate` on concrete inputs. -/
lemma stepFrame_hello (st : SState) (gv : GlossVar) (w r t : ℚ)
    (hw0 : 0 < w) (hw : (1 : ℚ) / 1000 < w) (hr0 : 0 < r) (hr : (1 : ℚ) / 1000 < r)
    (hspan : (8 : ℝ) / 100 ≤ |((w - r : ℚ) : ℝ)|)
    (hm : handsMoved (uHand w r) st.previous_hand_landmarks 1) :
    stepFrame gClfHello tClfNone st gv (frameV w r t) =
      glossGate tClfNone st (false, none)
        (some (some "HELLO", 19 / 20), some (uHand w r), true) (frameV w r t) := by
  have hhands : (frameV w r t).hands = uHand w r := rfl
  have hlen : (frameV w r t).hands.length / 63 = 1 := by
    rw [hhands, uHand_length]
  rw [stepFrame]
  rw [show hdCheck (9 / 10) (3 / 2) st.hands_down_start (frameV w r t).hands (frameV w r t).t =
    (false, none) from hdCheck_uHand _ _ _ _]
  rw [glossPhase_moved gClfHello st.previous_hand_landmarks gv (frameV w r t)
    (by rw [hlen]; norm_num)
    (by rw [hlen]; exact validHandDetected_uHand w r hw0 hw hr0 hr)
    (by rw [hlen]; exact validSpanFound_uHand w r hspan)
    (by rw [hlen]; exact hm)
    (by rw [hhands]; intro hcon; have := congrArg List.length hcon;
        rw [uHand_length] at this; simp at this)]
  rfl

/-- All consecutive concrete frames have wrist/filler x-difference -0.1. -/
lemma span_neg_tenth (w r : ℚ) (h : w - r = -(1/10)) :
    (8 : ℝ) / 100 ≤ |((w - r : ℚ) : ℝ)| := by
  rw [h, show ((-(1/10) : ℚ) : ℝ) = -(1/10) by push_cast; ring, abs_neg,
    abs_of_pos (by norm_num : (0:ℝ) < 1/10)]
  norm_num

/-- Uniform displacement of 0.1 per coordinate passes the motion gate. -/
lemma handsMoved_tenth (w1 r1 w0 r0 : ℚ) (hw : w1 - w0 = 1/10) (hr : r1 - r0 = 1/10) :
    handsMoved (uHand w1 r1) (some (uHand w0 r0)) 1 := by
  rw [handsMoved_uHand, hw, hr, abs_rat_cast_eval _ (by norm_num)]
  push_cast
  norm_num

/-- Step on F0 from the freshly initialised servicer state. -/
lemma step_F0 (gv : GlossVar) :
    stepFrame gClfHello tClfNone initState gv F0 =
      Except.ok (st1, some (some "HELLO", 19 / 20), ⟨[], true, false⟩) := by
  rw [show F0 = frameV (1/2) (3/5) 0 from rfl]
  rw [stepFrame_hello initState gv (1/2) (3/5) 0 (by norm_num) (by norm_num)
    (by norm_num) (by norm_num) (span_neg_tenth _ _ (by norm_num))
    (by simp [handsMoved, initState])]
  rw [glossGate_assigned]
  dsimp only
  rw [if_pos (And.intro (show strTruthy (some "HELLO") = true from rfl)
    (by norm_num : (9:ℚ)/10 ≤ 19/20))]
  simp [-one_div, glossBufferStep_one, tonePhase_off, hdEventsOf, hdStartAfter, st1, initState]
  rfl

/-- Step on F1 from `st1`. -/
lemma step_F1 (gv : GlossVar) :
    stepFrame gClfHello tClfNone st1 gv F1 =
      Except.ok (st2, some (some "HELLO", 19 / 20), ⟨[], true, false⟩) := by
  rw [show F1 = frameV (3/5) (7/10) 1 from rfl]
  rw [stepFrame_hello st1 gv (3/5) (7/10) 1 (by norm_num) (by norm_num)
    (by norm_num) (by norm_num) (span_neg_tenth _ _ (by norm_num))
    (by exact handsMoved_tenth (3/5) (7/10) (1/2) (3/5) (by norm_num) (by norm_num))]
  rw [glossGate_assigned]
  dsimp only
  rw [if_pos (And.intro (show strTruthy (some "HELLO") = true from rfl)
    (by norm_num : (9:ℚ)/10 ≤ 19/20))]
  rw [show st1.recent_gloss_detections = [("HELLO", 19/20)] from rfl]
  rw [show (some "HELLO").getD "" = "HELLO" from rfl]
  rw [glossBufferStep_two]
  simp [-one_div, tonePhase_off, hdEventsOf, hdStartAfter, st2, st1]
  rfl

/-- Step on F2 from `st2`: the third consecutive HELLO frame emits a GLOSS. -/
lemma step_F2 (gv : GlossVar) :
    stepFrame gClfHello tClfNone st2 gv F2 =
      Except.ok (st3, some (some "HELLO", 19 / 20),
        ⟨[⟨EType.GLOSS, "HELLO", 19 / 20⟩], true, true⟩) := by
  rw [show F2 = frameV (7/10) (4/5) 2 from rfl]
  rw [stepFrame_hello st2 gv (7/10) (4/5) 2 (by norm_num) (by norm_num)
    (by norm_num) (by norm_num) (span_neg_tenth _ _ (by norm_num))
    (by exact handsMoved_tenth (7/10) (4/5) (3/5) (7/10) (by norm_num) (by norm_num))]
  rw [glossGate_assigned]
  dsimp only
  rw [if_pos (And.intro (show strTruthy (some "HELLO") = true from rfl)
    (by norm_num : (9:ℚ)/10 ≤ 19/20))]
  rw [show st2.recent_gloss_detections = [("HELLO", 19/20), ("HELLO", 19/20)] from rfl]
  rw [show (some "HELLO").getD "" = "HELLO" from rfl]
  rw [glossBufferStep_three_same]
  rw [show (st2.last_gloss_yielded || (⟨[], some ⟨EType.GLOSS, "HELLO", 19/20⟩, true⟩ :
    GlossStepResult).yielded) = true from rfl]
  rw [show st2.last_tone_event = (none : Option String) from rfl]
  rw [tonePhase_flag_none]
  simp [-one_div, hdEventsOf, hdStartAfter, st3, st2]
  rfl

/-- Step on F3 from `st3` (the frame after a GLOSS emission): buffer restarts,
no event, tone classifier not invoked. -/
lemma step_F3 (gv : GlossVar) :
    stepFrame gClfHello tClfNone st3 gv F3 =
      Except.ok (⟨[("HELLO", 19 / 20)], some F3.hands, none, false, none⟩,
        some (some "HELLO", 19 / 20), ⟨[], true, false⟩) := by
  rw [show F3 = frameV (4/5) (9/10) 3 from rfl]
  rw [stepFrame_hello st3 gv (4/5) (9/10) 3 (by norm_num) (by norm_num)
    (by norm_num) (by norm_num) (span_neg_tenth _ _ (by norm_num))
    (by exact handsMoved_tenth (4/5) (9/10) (7/10) (4/5) (by norm_num) (by norm_num))]
  rw [glossGate_assigned]
  dsimp only
  rw [if_pos (And.intro (show strTruthy (some "HELLO") = true from rfl)
    (by norm_num : (9:ℚ)/10 ≤ 19/20))]
  rw [show st3.recent_gloss_detections = ([] : List (String × ℚ)) from rfl]
  rw [show (some "HELLO").getD "" = "HELLO" from rfl]
  rw [glossBufferStep_one]
  simp [-one_div, tonePhase_off, hdEventsOf, hdStartAfter, st3]
  rfl

/-- Step on the empty-hands frame from `st2`, with the gloss variable still
holding the stale ("HELLO", 0.95) of the previous frame: the stale value is
appended and a GLOSS event fires on a frame with no hands at all. -/
lemma step_Fempty_stale :
    stepFrame gClfHello tClfNone st2 (some (some "HELLO", 19 / 20)) Fempty =
      Except.ok (⟨[], some F1.hands, none, false, none⟩, some (some "HELLO", 19 / 20),
        ⟨[⟨EType.GLOSS, "HELLO", 19 / 20⟩], false, true⟩) := by
  rw [stepFrame]
  rw [show Fempty.hands = ([] : List ℚ) from rfl, hdCheck_empty]
  rw [glossPhase_skip _ _ _ _ (by rfl)]
  rw [show st2.previous_hand_landmarks = some F1.hands from rfl]
  rw [glossGate_assigned]
  dsimp only
  rw [if_pos (And.intro (show strTruthy (some "HELLO") = true from rfl)
    (by norm_num : (9:ℚ)/10 ≤ 19/20))]
  rw [show st2.recent_gloss_detections = [("HELLO", 19/20), ("HELLO", 19/20)] from rfl]
  rw [show (some "HELLO").getD "" = "HELLO" from rfl]
  rw [glossBufferStep_three_same]
  rw [show (st2.last_gloss_yielded || (⟨[], some ⟨EType.GLOSS, "HELLO", 19/20⟩, true⟩ :
    GlossStepResult).yielded) = true from rfl]
  rw [show st2.last_tone_event = (none : Option String) from rfl]
  rw [tonePhase_flag_none]
  simp [-one_div, hdEventsOf, hdStartAfter, st2]



/-! ### Run evaluations and ghost frames -/

/-! runFrames unfolding lemmas. -/

lemma runFrames_nil (gClf tClf : Frame → Option String × ℚ) (st : SState) (gv : GlossVar) :
    runFrames gClf tClf st gv [] = (st, [], false) := rfl

lemma runFrames_cons_ok (gClf tClf : Frame → Option String × ℚ) (st : SState) (gv : GlossVar)
    (fr : Frame) (rest : List Frame) (r : SState × GlossVar × StepOut)
    (h : stepFrame gClf tClf st gv fr = Except.ok r) :
    runFrames gClf tClf st gv (fr :: rest) =
      ((runFrames gClf tClf r.1 r.2.1 rest).1,
        r.2.2.events ++ (runFrames gClf tClf r.1 r.2.1 rest).2.1,
        (runFrames gClf tClf r.1 r.2.1 rest).2.2) := by
  simp only [runFrames, h]

lemma runFrames_cons_error (gClf tClf : Frame → Option String × ℚ) (st : SState)
    (gv : GlossVar) (fr : Frame) (rest : List Frame) (e : List Event × SState)
    (h : stepFrame gClf tClf st gv fr = Except.error e) :
    runFrames gClf tClf st gv (fr :: rest) = (e.2, e.1, true) := by
  simp only [runFrames, h]

/-- Connection 1 of the state-sharing scenario. -/
lemma run_conn1 :
    runFrames gClfHello tClfNone initState none [F0, F1] = (st2, [], false) := by
  rw [runFrames_cons_ok _ _ _ _ _ _ _ (step_F0 none)]
  rw [runFrames_cons_ok _ _ _ _ _ _ _ (step_F1 _)]
  rw [runFrames_nil]
  rfl

/-- The stale-gloss trace: two valid frames, then an empty-hands frame that
emits a GLOSS. -/
lemma run_stale :
    runFrames gClfHello tClfNone initState none [F0, F1, Fempty] =
      (⟨[], some F1.hands, none, false, none⟩, [⟨EType.GLOSS, "HELLO", 19 / 20⟩], false) := by
  rw [runFrames_cons_ok _ _ _ _ _ _ _ (step_F0 none)]
  rw [runFrames_cons_ok _ _ _ _ _ _ _ (step_F1 _)]
  rw [runFrames_cons_ok _ _ _ _ _ _ _ step_Fempty_stale]
  rw [runFrames_nil]
  rfl

/-- Connection 2, resumed on the shared servicer state left by connection 1:
its very first frame emits a GLOSS event. -/
lemma run_conn2_shared :
    runFrames gClfHello tClfNone st2 none [F2] =
      (st3, [⟨EType.GLOSS, "HELLO", 19 / 20⟩], false) := by
  rw [runFrames_cons_ok _ _ _ _ _ _ _ (step_F2 none)]
  rw [runFrames_nil]
  rfl

/-- The same single frame processed from a freshly initialised state emits
nothing. -/
lemma run_conn2_fresh :
    runFrames gClfHello tClfNone initState none [F2] =
      (⟨[("HELLO", 19 / 20)], some F2.hands, none, false, none⟩, [], false) := by
  have h : stepFrame gClfHello tClfNone initState none F2 =
      Except.ok (⟨[("HELLO", 19 / 20)], some F2.hands, none, false, none⟩,
        some (some "HELLO", 19 / 20), ⟨[], true, false⟩) := by
    rw [show F2 = frameV (7/10) (4/5) 2 from rfl]
    rw [stepFrame_hello initState none (7/10) (4/5) 2 (by norm_num) (by norm_num)
      (by norm_num) (by norm_num) (span_neg_tenth _ _ (by norm_num))
      (by simp [handsMoved, initState])]
    rw [glossGate_assigned]
    dsimp only
    rw [if_pos (And.intro (show strTruthy (some "HELLO") = true from rfl)
      (by norm_num : (9:ℚ)/10 ≤ 19/20))]
    rw [show initState.recent_gloss_detections = ([] : List (String × ℚ)) from rfl]
    rw [show (some "HELLO").getD "" = "HELLO" from rfl]
    rw [glossBufferStep_one]
    simp [-one_div, tonePhase_off, hdEventsOf, hdStartAfter, initState]
    rfl
  rw [runFrames_cons_ok _ _ _ _ _ _ _ h]
  rw [runFrames_nil]
  rfl

/-! Ghost-pair frame evaluation. -/

lemma countP_blockDense : blockDense.countP densP = 63 := by
  rw [show blockDense = hand3 (1/2, 1/2, 1/2) (1/2, 1/2, 1/2) (1/2, 1/2, 1/2) from rfl]
  rw [countP_hand3]
  rw [countP_triple_true densP _ _ _ (densP_pos _ (by norm_num) (by norm_num))
    (densP_pos _ (by norm_num) (by norm_num)) (densP_pos _ (by norm_num) (by norm_num))]

lemma ghostPair_length : (blockDense ++ blockGhost).length = 126 := by
  rw [List.length_append]
  rw [show blockDense.length = 63 from hand3_length _ _ _]
  rw [show blockGhost.length = 63 from hand3_length _ _ _]

lemma effectiveWristY_ghostPair : effectiveWristY (blockDense ++ blockGhost) = 1 / 2 := by
  rw [effectiveWristY]
  rw [if_pos (by rw [ghostPair_length]; norm_num)]
  rw [if_pos (by rw [ghostPair_length]; norm_num)]
  rw [if_pos (by rw [ghostPair_length]; norm_num)]
  rw [List.getD_append _ _ _ _ (by
    rw [show blockDense.length = 63 from hand3_length _ _ _]; norm_num)]
  rw [show blockDense.getD 1 0 = 1/2 from rfl]
  rw [List.getD_append_right _ _ _ _ (by
    rw [show blockDense.length = 63 from hand3_length _ _ _]; norm_num)]
  rw [show blockDense.length = 63 from hand3_length _ _ _]
  rw [show blockGhost.getD (64 - 63) 0 = 0 from rfl]
  exact max_eq_left (by norm_num)

lemma step_ghostPair :
    stepFrame gClfNone tClfNone initState none frameGhostPair =
      Except.ok (⟨[], some frameGhostPair.hands, none, false, none⟩, some (none, 0),
        ⟨[], true, false⟩) := by
  have hhands : frameGhostPair.hands = blockDense ++ blockGhost := rfl
  have hlen : frameGhostPair.hands.length / 63 = 2 := by
    rw [hhands, ghostPair_length]
  rw [stepFrame]
  rw [show hdCheck (9 / 10) (3 / 2) initState.hands_down_start frameGhostPair.hands
      frameGhostPair.t = (false, none) by
    apply hdCheck_low
    rw [hhands, effectiveWristY_ghostPair]
    norm_num]
  rw [glossPhase_moved gClfNone initState.previous_hand_landmarks none frameGhostPair
    (by rw [hlen]; norm_num)
    (by rw [hlen, hhands]
        exact validHandDetected_pair_left _ _ (hand3_length _ _ _) (hand3_length _ _ _)
          (by rw [countP_blockDense]; norm_num))
    (by rw [hlen, hhands]; exact validSpanFound_ghostPair)
    (by simp [handsMoved, initState])
    (by rw [hhands]; intro hcon; have := congrArg List.length hcon;
        rw [ghostPair_length] at this; simp at this)]
  rw [glossGate_assigned]
  dsimp only
  rw [if_neg (by simp [gClfNone, strTruthy])]
  simp [tonePhase_off, hdEventsOf, hdStartAfter, initState, gClfNone]



/-! ### General phase lemmas -/

/-! tonePhase general facts. -/

lemma tonePhase_true_eq (tClf : Frame → Option String × ℚ) (lt : Option String) (fr : Frame) :
    tonePhase tClf lt true fr =
      if strTruthy (tClf fr).1 = true ∧ 8 / 10 ≤ (tClf fr).2 then
        (if lt ≠ some ((tClf fr).1.getD "") then
          ([⟨EType.TONE, (tClf fr).1.getD "", (tClf fr).2⟩], some ((tClf fr).1.getD ""),
            false, true)
        else ([], lt, false, true))
      else ([], lt, false, true) := by
  rw [tonePhase, if_pos rfl]

lemma tonePhase_classified (tClf : Frame → Option String × ℚ) (lt : Option String)
    (flag : Bool) (fr : Frame) : (tonePhase tClf lt flag fr).2.2.2 = flag := by
  cases flag with
  | false => rfl
  | true =>
    rw [tonePhase_true_eq]
    split
    · split <;> rfl
    · rfl

lemma tonePhase_flag_after (tClf : Frame → Option String × ℚ) (lt : Option String)
    (flag : Bool) (fr : Frame) : (tonePhase tClf lt flag fr).2.2.1 = false := by
  cases flag with
  | false => rfl
  | true =>
    rw [tonePhase_true_eq]
    split
    · split <;> rfl
    · rfl

lemma tonePhase_tone_shape (tClf : Frame → Option String × ℚ) (lt : Option String)
    (flag : Bool) (fr : Frame) :
    ((tonePhase tClf lt flag fr).1 = [] ∧ (tonePhase tClf lt flag fr).2.1 = lt) ∨
    (∃ l c, (tonePhase tClf lt flag fr).1 = [⟨EType.TONE, l, c⟩] ∧ (8 : ℚ) / 10 ≤ c ∧
      some l ≠ lt ∧ (tonePhase tClf lt flag fr).2.1 = some l) := by
  cases flag with
  | false => left; exact ⟨rfl, rfl⟩
  | true =>
    rw [tonePhase_true_eq]
    by_cases h1 : strTruthy (tClf fr).1 = true ∧ 8 / 10 ≤ (tClf fr).2
    · rw [if_pos h1]
      by_cases h2 : lt ≠ some ((tClf fr).1.getD "")
      · rw [if_pos h2]
        right
        exact ⟨_, _, rfl, h1.2, Ne.symm h2, rfl⟩
      · rw [if_neg h2]
        left; exact ⟨rfl, rfl⟩
    · rw [if_neg h1]
      left; exact ⟨rfl, rfl⟩

lemma tonePhase_types (tClf : Frame → Option String × ℚ) (lt : Option String)
    (flag : Bool) (fr : Frame) :
    ∀ e ∈ (tonePhase tClf lt flag fr).1, e.type = EType.TONE := by
  rcases tonePhase_tone_shape tClf lt flag fr with ⟨h, -⟩ | ⟨l, c, h, -, -, -⟩ <;> rw [h]
  · intro e he; exact absurd he (List.not_mem_nil e)
  · intro e he
    rw [List.mem_singleton] at he
    rw [he]

/-! glossBufferStep general facts. -/

lemma glossBufferStep_event_type (b : List (String × ℚ)) (l : String) (c : ℚ) (e : Event)
    (h : (glossBufferStep b l c).event = some e) : e.type = EType.GLOSS ∧ e.confidence = c := by
  simp only [glossBufferStep] at h
  split_ifs at h <;> simp_all <;> rw [← h] <;> exact ⟨rfl, rfl⟩

lemma glossBufferStep_yielded_iff (b : List (String × ℚ)) (l : String) (c : ℚ) :
    (glossBufferStep b l c).yielded = true ↔ (glossBufferStep b l c).event.isSome := by
  simp only [glossBufferStep]
  split_ifs <;> simp

/-! Event-list type facts. -/

lemma hdEventsOf_types (hd : Bool × Option ℚ) :
    ∀ e ∈ hdEventsOf hd, e.type = EType.HANDS_DOWN := by
  rw [hdEventsOf]
  split
  · intro e he
    rw [List.mem_singleton] at he
    rw [he]
  · intro e he; exact absurd he (List.not_mem_nil e)

lemma toneLabels_append (a b : List Event) :
    toneLabels (a ++ b) = toneLabels a ++ toneLabels b := by
  simp [toneLabels]

lemma toneLabels_nil_of_types (evs : List Event) (h : ∀ e ∈ evs, e.type ≠ EType.TONE) :
    toneLabels evs = [] := by
  rw [toneLabels]
  rw [List.filter_eq_nil_iff.mpr]
  · rfl
  · intro e he
    simp only [beq_iff_eq]
    exact fun hc => h e he (by simpa using hc)

/-! glossPhase case analysis and stepFrame destructuring. -/

lemma glossPhase_fst_cases (gClf : Frame → Option String × ℚ) (prev : Option (List ℚ))
    (gv : GlossVar) (fr : Frame) :
    (fr.hands.length / 63 = 0 ∧ glossPhase gClf prev gv fr = (gv, prev, false)) ∨
    (∃ glc pr b, glossPhase gClf prev gv fr = (some glc, pr, b)) := by
  rw [glossPhase]
  split_ifs with h1 <;>
    first
      | exact Or.inl ⟨h1, rfl⟩
      | exact Or.inr ⟨_, _, _, rfl⟩

lemma stepFrame_error_destruct (gClf tClf : Frame → Option String × ℚ) (st : SState)
    (gv : GlossVar) (fr : Frame) (e : List Event × SState)
    (h : stepFrame gClf tClf st gv fr = Except.error e) :
    gv = none ∧ fr.hands.length / 63 = 0 ∧
      e = (hdEventsOf (hdCheck (9 / 10) (3 / 2) st.hands_down_start fr.hands fr.t),
        { st with hands_down_start :=
            hdStartAfter (hdCheck (9 / 10) (3 / 2) st.hands_down_start fr.hands fr.t) }) := by
  rw [stepFrame] at h
  rcases glossPhase_fst_cases gClf st.previous_hand_landmarks gv fr with ⟨h0, heq⟩ |
    ⟨glc, pr, b, heq⟩
  · rw [heq] at h
    cases gv with
    | none =>
      rw [glossGate_unassigned] at h
      rw [Except.error.injEq] at h
      exact ⟨rfl, h0, h.symm⟩
    | some p =>
      rw [glossGate_assigned] at h
      exact absurd h (by simp)
  · rw [heq, glossGate_assigned] at h
    exact absurd h (by simp)

/-- Destructuring of a successful step: the gloss-phase result, and the
resulting state/output in terms of the buffer step and tone phase. -/
lemma stepFrame_ok_destruct (gClf tClf : Frame → Option String × ℚ) (st : SState)
    (gv : GlossVar) (fr : Frame) (st' : SState) (gv' : GlossVar) (out : StepOut)
    (h : stepFrame gClf tClf st gv fr = Except.ok (st', gv', out)) :
    ∃ glc pr b gr,
      glossPhase gClf st.previous_hand_landmarks gv fr = (some glc, pr, b) ∧
      gr = (if strTruthy glc.1 = true ∧ 9 / 10 ≤ glc.2 then
          glossBufferStep st.recent_gloss_detections (glc.1.getD "") glc.2
        else ⟨st.recent_gloss_detections, none, false⟩) ∧
      st' = ⟨gr.buffer, pr,
        (tonePhase tClf st.last_tone_event (st.last_gloss_yielded || gr.yielded) fr).2.1,
        (tonePhase tClf st.last_tone_event (st.last_gloss_yielded || gr.yielded) fr).2.2.1,
        hdStartAfter (hdCheck (9 / 10) (3 / 2) st.hands_down_start fr.hands fr.t)⟩ ∧
      gv' = some glc ∧
      out = ⟨hdEventsOf (hdCheck (9 / 10) (3 / 2) st.hands_down_start fr.hands fr.t) ++
          gr.event.toList ++
          (tonePhase tClf st.last_tone_event (st.last_gloss_yielded || gr.yielded) fr).1, b,
        (tonePhase tClf st.last_tone_event (st.last_gloss_yielded || gr.yielded) fr).2.2.2⟩ := by
  rw [stepFrame] at h
  rcases glossPhase_fst_cases gClf st.previous_hand_landmarks gv fr with ⟨h0, heq⟩ |
    ⟨glc, pr, b, heq⟩
  · rw [heq] at h
    cases gv with
    | none => rw [glossGate_unassigned] at h; exact absurd h (by simp)
    | some p =>
      rw [glossGate_assigned] at h
      rw [Except.ok.injEq] at h
      refine ⟨p, st.previous_hand_landmarks, false, _, heq, rfl, ?_, ?_, ?_⟩
      · exact congrArg Prod.fst h.symm
      · exact congrArg (fun q => q.2.1) h.symm
      · exact congrArg (fun q => q.2.2) h.symm
  · rw [heq, glossGate_assigned] at h
    rw [Except.ok.injEq] at h
    refine ⟨glc, pr, b, _, heq, rfl, ?_, ?_, ?_⟩
    · exact congrArg Prod.fst h.symm
    · exact congrArg (fun q => q.2.1) h.symm
    · exact congrArg (fun q => q.2.2) h.symm



/-! Motion-gate general lemmas for the identical-snapshot case. -/

lemma toTriplets_length (l : List ℚ) : (toTriplets l).length = l.length / 3 := by
  induction l using toTriplets.induct with
  | case1 x y z rest ih =>
    rw [toTriplets, List.length_cons, ih, List.length_cons, List.length_cons, List.length_cons]
    rw [show rest.length + 1 + 1 + 1 = rest.length + 3 from rfl,
      Nat.add_div_right _ (by norm_num)]
  | case2 l h =>
    rcases l with _ | ⟨a, _ | ⟨b, _ | ⟨c, rest⟩⟩⟩
    · simp [toTriplets]
    · simp [toTriplets]
    · simp [toTriplets]
    · exact absurd rfl (h a b c rest)

lemma tripletSumDist_self_zip (t : List (ℚ × ℚ × ℚ)) : tripletSumDist (t.zip t) = 0 := by
  induction t with
  | nil => rfl
  | cons p ps ih =>
    rw [List.zip_cons_cons, tripletSumDist, dist3_self, ih]
    ring

lemma handPairDisp_self (l : List ℚ) : handPairDisp l l = (0, (toTriplets l).length) := by
  rw [handPairDisp, tripletSumDist_self_zip]
  simp

/-- Processing a frame identical to the previous snapshot accumulates zero
displacement over at least 21 compared triplets (one hand minimum). -/
lemma motionData_self (cur : List ℚ) (n : ℕ) (h63 : 63 ≤ cur.length) (hn : 1 ≤ n) :
    (motionData cur cur n).1 = 0 ∧ 21 ≤ (motionData cur cur n).2 := by
  rw [motionData]
  have hmin : 1 ≤ min n (cur.length / 63) := by
    refine le_min hn ?_
    omega
  obtain ⟨k, hk⟩ : ∃ k, min n (cur.length / 63) = k + 1 := ⟨_, (Nat.succ_pred_eq_of_pos hmin).symm⟩
  rw [hk, List.range_succ_eq_map, List.foldl_cons]
  rw [if_neg (by omega)]
  rw [handPairDisp_self]
  have hslice : (toTriplets ((cur.drop (0 * 63)).take 63)).length = 21 := by
    rw [toTriplets_length, List.length_take, List.length_drop, Nat.zero_mul, Nat.sub_zero]
    omega
  rw [hslice]
  -- remaining fold only adds zero displacements and non-negative counts
  have main : ∀ (l : List ℕ) (acc : ℝ × ℕ), acc.1 = 0 →
      ((l.foldl (fun acc i =>
        if cur.length < i * 63 + 63 ∨ cur.length < i * 63 + 63 then acc
        else
          ((handPairDisp ((cur.drop (i * 63)).take 63) ((cur.drop (i * 63)).take 63)).1 + acc.1,
            (handPairDisp ((cur.drop (i * 63)).take 63) ((cur.drop (i * 63)).take 63)).2 + acc.2))
        acc).1 = 0 ∧
       acc.2 ≤ (l.foldl (fun acc i =>
        if cur.length < i * 63 + 63 ∨ cur.length < i * 63 + 63 then acc
        else
          ((handPairDisp ((cur.drop (i * 63)).take 63) ((cur.drop (i * 63)).take 63)).1 + acc.1,
            (handPairDisp ((cur.drop (i * 63)).take 63) ((cur.drop (i * 63)).take 63)).2 + acc.2))
        acc).2) := by
    intro l
    induction l with
    | nil => intro acc h0; exact ⟨h0, le_refl _⟩
    | cons i rest ih =>
      intro acc h0
      rw [List.foldl_cons]
      by_cases hg : cur.length < i * 63 + 63 ∨ cur.length < i * 63 + 63
      · rw [if_pos hg]
        exact ih acc h0
      · rw [if_neg hg]
        rw [handPairDisp_self]
        have := ih ((0 : ℝ) + acc.1, (toTriplets ((cur.drop (i * 63)).take 63)).length + acc.2)
          (by simp [h0])
        refine ⟨this.1, le_trans ?_ this.2⟩
        simp

  have hres := main ((List.range k).map Nat.succ) (0 + 0, 21 + 0) (by simp)
  constructor
  · exact hres.1
  · calc (21 : ℕ) = 21 + 0 := by simp
      _ ≤ _ := hres.2

/-- A frame whose hands are identical to the previous snapshot fails the
motion gate (when at least one hand block is present). -/
lemma not_handsMoved_self (cur : List ℚ) (n : ℕ) (h63 : 63 ≤ cur.length) (hn : 1 ≤ n) :
    ¬handsMoved cur (some cur) n := by
  obtain ⟨h1, h2⟩ := motionData_self cur n h63 hn
  rw [handsMoved]
  rw [if_neg (by omega)]
  rw [h1, zero_div]
  norm_num



/-! Tone-dedup run-level machinery. -/

lemma toneLabels_single (l : String) (c : ℚ) :
    toneLabels [⟨EType.TONE, l, c⟩] = [l] := by
  simp [toneLabels]

lemma stepFrame_tone_shape (gClf tClf : Frame → Option String × ℚ) (st : SState)
    (gv : GlossVar) (fr : Frame) (st' : SState) (gv' : GlossVar) (out : StepOut)
    (h : stepFrame gClf tClf st gv fr = Except.ok (st', gv', out)) :
    (toneLabels out.events = [] ∧ st'.last_tone_event = st.last_tone_event) ∨
    (∃ l, toneLabels out.events = [l] ∧ some l ≠ st.last_tone_event ∧
      st'.last_tone_event = some l) := by
  obtain ⟨glc, pr, b, gr, hgp, hgr, hst, hgv, hout⟩ :=
    stepFrame_ok_destruct gClf tClf st gv fr st' gv' out h
  have hgrt : ∀ e ∈ gr.event.toList, e.type ≠ EType.TONE := by
    intro e he
    rw [Option.mem_toList] at he
    by_cases hc : strTruthy glc.1 = true ∧ 9 / 10 ≤ glc.2
    · rw [if_pos hc] at hgr
      rw [hgr] at he
      have := (glossBufferStep_event_type _ _ _ e (Option.mem_def.mp he)).1
      rw [this]
      intro hcon
      exact absurd hcon (by intro hx; cases hx)
    · rw [if_neg hc] at hgr
      rw [hgr] at he
      exact absurd he (by simp)
  rw [hout, hst]
  simp only
  rw [toneLabels_append, toneLabels_append]
  rw [toneLabels_nil_of_types _ (by
    intro e he
    rw [hdEventsOf_types _ e he]
    intro hcon
    cases hcon)]
  rw [toneLabels_nil_of_types _ hgrt]
  simp only [List.nil_append]
  rcases tonePhase_tone_shape tClf st.last_tone_event (st.last_gloss_yielded || gr.yielded) fr
    with ⟨h1, h2⟩ | ⟨l, c, h1, -, hne, h2⟩
  · left
    rw [h1, h2]
    exact ⟨rfl, rfl⟩
  · right
    exact ⟨l, by rw [h1, toneLabels_single], hne, h2⟩

lemma okSeq_nil (lt : Option String) : okSeq lt [] := trivial

lemma runFrames_okSeq (gClf tClf : Frame → Option String × ℚ) (frames : List Frame) :
    ∀ (st : SState) (gv : GlossVar),
      okSeq st.last_tone_event (toneLabels (runFrames gClf tClf st gv frames).2.1) := by
  induction frames with
  | nil =>
    intro st gv
    rw [runFrames_nil]
    exact trivial
  | cons fr rest ih =>
    intro st gv
    cases hstep : stepFrame gClf tClf st gv fr with
    | error e =>
      rw [runFrames_cons_error _ _ _ _ _ _ _ hstep]
      obtain ⟨-, -, he⟩ := stepFrame_error_destruct _ _ _ _ _ _ hstep
      rw [he]
      simp only
      rw [toneLabels_nil_of_types _ (by
        intro ev hev
        rw [hdEventsOf_types _ ev hev]
        intro hcon
        cases hcon)]
      exact trivial
    | ok r =>
      rw [runFrames_cons_ok _ _ _ _ _ _ _ hstep]
      simp only
      rw [toneLabels_append]
      rcases stepFrame_tone_shape gClf tClf st gv fr r.1 r.2.1 r.2.2 (by
          rw [hstep]) with ⟨h0, hlt⟩ | ⟨l, hl, hne, hlt⟩
      · rw [h0, List.nil_append]
        have := ih r.1 r.2.1
        rwa [hlt] at this
      · rw [hl]
        refine ⟨hne, ?_⟩
        have := ih r.1 r.2.1
        rwa [hlt] at this

lemma okSeq_chain : ∀ (ls : List String) (lt : Option String),
    okSeq lt ls → List.Chain' (· ≠ ·) ls
  | [], _, _ => List.chain'_nil
  | [_], _, _ => List.chain'_singleton _
  | l :: l' :: ls, lt, h => by
    rw [List.chain'_cons]
    obtain ⟨h1, h2⟩ := h
    exact ⟨fun he => h2.1 (by rw [he]), okSeq_chain (l' :: ls) (some l) h2⟩

/-! Empty-hands step lemmas (claims C4/C10). -/

lemma stepFrame_empty_unassigned (gClf tClf : Frame → Option String × ℚ) (st : SState)
    (fr : Frame) (h : fr.hands = []) :
    stepFrame gClf tClf st none fr =
      Except.error ([], { st with hands_down_start := none }) := by
  rw [stepFrame]
  rw [glossPhase_skip _ _ _ _ (by rw [h]; rfl)]
  rw [glossGate_unassigned]
  rw [h, hdCheck_empty]
  rfl

lemma stepFrame_empty_assigned (gClf tClf : Frame → Option String × ℚ) (st : SState)
    (p : Option String × ℚ) (fr : Frame) (h : fr.hands = []) :
    stepFrame gClf tClf st (some p) fr =
      glossGate tClf st (false, none) (some p, st.previous_hand_landmarks, false) fr := by
  rw [stepFrame]
  rw [glossPhase_skip _ _ _ _ (by rw [h]; rfl)]
  rw [h, hdCheck_empty]

lemma streamLandmarks_empty_first (gClf tClf : Frame → Option String × ℚ) (st : SState)
    (fr : Frame) (rest : List Frame) (h : fr.hands = []) :
    streamLandmarks gClf tClf st (fr :: rest) =
      ({ st with hands_down_start := none }, [], true) := by
  rw [streamLandmarks]
  rw [runFrames_cons_error _ _ _ _ _ _ _
    (stepFrame_empty_unassigned gClf tClf (streamStart st) fr h)]
  rfl



/-! Hands-down dwell-time lemmas (claim C8). -/

lemma hdCheck_good_none (hl : List ℚ) (t : ℚ) (hg : goodFrame (hl, t)) :
    hdCheck (9 / 10) (3 / 2) none hl t = (false, some t) := by
  rw [hdCheck.eq_def]
  rw [if_neg (by have h3 := hg.1; simp only at h3; omega)]
  rw [if_pos hg.2]

lemma hdCheck_good_some (hl : List ℚ) (t s : ℚ) (hg : goodFrame (hl, t)) :
    hdCheck (9 / 10) (3 / 2) (some s) hl t =
      if 3 / 2 < t - s then (true, some s) else (false, some s) := by
  rw [hdCheck.eq_def]
  rw [if_neg (by have h3 := hg.1; simp only at h3; omega)]
  rw [if_pos hg.2]

lemma hdRun_cons_nofire (hl : List ℚ) (t : ℚ) (rest : List (List ℚ × ℚ)) (σ s' : Option ℚ)
    (h : hdCheck (9 / 10) (3 / 2) σ hl t = (false, s')) :
    hdRun σ ((hl, t) :: rest) = hdRun s' rest := by
  simp only [hdRun, h]
  simp

lemma hdRun_cons_fire (hl : List ℚ) (t : ℚ) (rest : List (List ℚ × ℚ)) (σ s' : Option ℚ)
    (h : hdCheck (9 / 10) (3 / 2) σ hl t = (true, s')) :
    hdRun σ ((hl, t) :: rest) =
      ((hdRun none rest).1, 1 + (hdRun none rest).2) := by
  simp only [hdRun, h]
  simp

lemma hdRun_zero_some : ∀ (fs : List (List ℚ × ℚ)) (s : ℚ),
    (∀ p ∈ fs, goodFrame p) → (∀ p ∈ fs, p.2 ≤ s + 3 / 2) →
    hdRun (some s) fs = (some s, 0) := by
  intro fs
  induction fs with
  | nil => intro s _ _; rfl
  | cons p rest ih =>
    intro s hg hb
    obtain ⟨hl, t⟩ := p
    have hnf : ¬(3 : ℚ) / 2 < t - s := by
      have := hb (hl, t) (List.mem_cons_self _ _)
      simp only at this
      linarith
    rw [hdRun_cons_nofire hl t rest _ (some s)
      (by rw [hdCheck_good_some hl t s (hg _ (List.mem_cons_self _ _)), if_neg hnf])]
    exact ih s (fun q hq => hg q (List.mem_cons_of_mem _ hq))
      (fun q hq => hb q (List.mem_cons_of_mem _ hq))

lemma hdRun_zero_none (fs : List (List ℚ × ℚ))
    (hg : ∀ p ∈ fs, goodFrame p)
    (hb : ∀ p ∈ fs, ∀ q, fs.head? = some q → p.2 ≤ q.2 + 3 / 2) :
    (hdRun none fs).2 = 0 := by
  cases fs with
  | nil => rfl
  | cons q rest =>
    obtain ⟨hl, t⟩ := q
    rw [hdRun_cons_nofire hl t rest _ (some t)
      (hdCheck_good_none hl t (hg _ (List.mem_cons_self _ _)))]
    rw [hdRun_zero_some rest t (fun p hp => hg p (List.mem_cons_of_mem _ hp))
      (fun p hp => by
        have := hb p (List.mem_cons_of_mem _ hp) (hl, t) rfl
        simpa using this)]

lemma hdRun_fire_some : ∀ (fs : List (List ℚ × ℚ)) (s : ℚ),
    (∀ p ∈ fs, goodFrame p) → (∃ p ∈ fs, s + 3 / 2 < p.2) →
    1 ≤ (hdRun (some s) fs).2 := by
  intro fs
  induction fs with
  | nil =>
    intro s _ hw
    obtain ⟨p, hp, -⟩ := hw
    exact absurd hp (List.not_mem_nil p)
  | cons q rest ih =>
    intro s hg hw
    obtain ⟨hl, t⟩ := q
    by_cases hf : (3 : ℚ) / 2 < t - s
    · rw [hdRun_cons_fire hl t rest _ (some s)
        (by rw [hdCheck_good_some hl t s (hg _ (List.mem_cons_self _ _)), if_pos hf])]
      omega
    · have hw' : ∃ p ∈ rest, s + 3 / 2 < p.2 := by
        obtain ⟨p, hp, hlt⟩ := hw
        rcases List.mem_cons.mp hp with heq | hmem
        · exfalso
          rw [heq] at hlt
          simp only at hlt
          exact hf (by linarith)
        · exact ⟨p, hmem, hlt⟩
      rw [hdRun_cons_nofire hl t rest _ (some s)
        (by rw [hdCheck_good_some hl t s (hg _ (List.mem_cons_self _ _)), if_neg hf])]
      exact ih s (fun q hq => hg q (List.mem_cons_of_mem _ hq)) hw'

lemma hdRun_fire_none (fs : List (List ℚ × ℚ)) (q : List ℚ × ℚ)
    (hg : ∀ p ∈ fs, goodFrame p) (hh : fs.head? = some q)
    (hw : ∃ p ∈ fs, q.2 + 3 / 2 < p.2) : 1 ≤ (hdRun none fs).2 := by
  cases fs with
  | nil => exact absurd hh (by simp)
  | cons q0 rest =>
    obtain ⟨hl, t⟩ := q0
    have hq : q = (hl, t) := by
      rw [List.head?_cons, Option.some.injEq] at hh
      exact hh.symm
    subst hq
    have hw' : ∃ p ∈ rest, t + 3 / 2 < p.2 := by
      obtain ⟨p, hp, hlt⟩ := hw
      simp only at hlt
      rcases List.mem_cons.mp hp with heq | hmem
      · exfalso
        rw [heq] at hlt
        simp only at hlt
        linarith
      · exact ⟨p, hmem, hlt⟩
    rw [hdRun_cons_nofire hl t rest _ (some t)
      (hdCheck_good_none hl t (hg _ (List.mem_cons_self _ _)))]
    exact hdRun_fire_some rest t (fun p hp => hg p (List.mem_cons_of_mem _ hp)) hw'

lemma hdRun_one_some : ∀ (fs : List (List ℚ × ℚ)) (s : ℚ),
    (∀ p ∈ fs, goodFrame p) → List.Pairwise (· ≤ ·) (fs.map Prod.snd) →
    (∀ p ∈ fs, p.2 ≤ s + 3) → (∃ p ∈ fs, s + 3 / 2 < p.2) →
    (hdRun (some s) fs).2 = 1 := by
  intro fs
  induction fs with
  | nil =>
    intro s _ _ _ hw
    obtain ⟨p, hp, -⟩ := hw
    exact absurd hp (List.not_mem_nil p)
  | cons q rest ih =>
    intro s hg hsort hb hw
    obtain ⟨hl, t⟩ := q
    rw [List.map_cons] at hsort
    have hpc := List.pairwise_cons.mp hsort
    have hle : ∀ p ∈ rest, t ≤ p.2 :=
      fun p hp => hpc.1 p.2 (List.mem_map_of_mem Prod.snd hp)
    by_cases hf : (3 : ℚ) / 2 < t - s
    · rw [hdRun_cons_fire hl t rest _ (some s)
        (by rw [hdCheck_good_some hl t s (hg _ (List.mem_cons_self _ _)), if_pos hf])]
      have hz : (hdRun none rest).2 = 0 := by
        apply hdRun_zero_none rest (fun p hp => hg p (List.mem_cons_of_mem _ hp))
        intro p hp q' hq'
        have hpb := hb p (List.mem_cons_of_mem _ hp)
        have hq'mem : q' ∈ rest := by
          cases rest with
          | nil => exact absurd hq' (by simp)
          | cons x xs =>
            rw [List.head?_cons, Option.some.injEq] at hq'
            rw [← hq']
            exact List.mem_cons_self x xs
        have := hle q' hq'mem
        simp only at hpb
        linarith
      simp [hz]
    · have hw' : ∃ p ∈ rest, s + 3 / 2 < p.2 := by
        obtain ⟨p, hp, hlt⟩ := hw
        rcases List.mem_cons.mp hp with heq | hmem
        · exfalso
          rw [heq] at hlt
          simp only at hlt
          exact hf (by linarith)
        · exact ⟨p, hmem, hlt⟩
      rw [hdRun_cons_nofire hl t rest _ (some s)
        (by rw [hdCheck_good_some hl t s (hg _ (List.mem_cons_self _ _)), if_neg hf])]
      exact ih s (fun p hp => hg p (List.mem_cons_of_mem _ hp)) hpc.2
        (fun p hp => hb p (List.mem_cons_of_mem _ hp)) hw'

lemma hdLast_mem : ∀ (ts : List (List ℚ × ℚ)) (b : List ℚ × ℚ), ts.getLast? = some b → b ∈ ts
  | [], b, h => absurd h (by simp)
  | [a], b, h => by
    rw [List.getLast?_singleton, Option.some.injEq] at h
    rw [← h]
    exact List.mem_singleton_self a
  | a :: c :: rest, b, h => by
    rw [List.getLast?_cons_cons] at h
    exact List.mem_cons_of_mem a (hdLast_mem (c :: rest) b h)

lemma sorted_le_last : ∀ (ts : List (List ℚ × ℚ)),
    List.Pairwise (· ≤ ·) (ts.map Prod.snd) →
    ∀ p ∈ ts, ∀ q, ts.getLast? = some q → p.2 ≤ q.2
  | [], _, p, hp, _, _ => absurd hp (List.not_mem_nil p)
  | [a], _, p, hp, q, hq => by
    rw [List.mem_singleton] at hp
    rw [List.getLast?_singleton, Option.some.injEq] at hq
    rw [hp, ← hq]
  | a :: c :: rest, hs, p, hp, q, hq => by
    rw [List.getLast?_cons_cons] at hq
    rw [List.map_cons] at hs
    have hpc := List.pairwise_cons.mp hs
    rcases List.mem_cons.mp hp with heq | hmem
    · have hqm : q ∈ c :: rest := hdLast_mem _ q hq
      have := hpc.1 q.2 (List.mem_map_of_mem Prod.snd hqm)
      rw [heq]
      exact this
    · exact sorted_le_last (c :: rest) hpc.2 p hmem q hq

lemma hdRun_append : ∀ (a : List (List ℚ × ℚ)) (σ : Option ℚ) (b : List (List ℚ × ℚ)),
    hdRun σ (a ++ b) =
      ((hdRun (hdRun σ a).1 b).1, (hdRun σ a).2 + (hdRun (hdRun σ a).1 b).2)
  | [], σ, b => by simp [hdRun]
  | (hl, t) :: rest, σ, b => by
    rw [List.cons_append]
    simp only [hdRun]
    rw [hdRun_append rest _ b, Nat.add_assoc]

lemma hdCheck_snd_cases (th d : ℚ) (s : Option ℚ) (hl : List ℚ) (t : ℚ) :
    (hdCheck th d s hl t).2 = none ∨ (hdCheck th d s hl t).2 = s ∨
      (hdCheck th d s hl t).2 = some t := by
  rw [hdCheck.eq_def]
  split_ifs <;> rcases s with _ | v <;> simp [apply_ite]

lemma hdRun_state : ∀ (fs : List (List ℚ × ℚ)) (σ : Option ℚ),
    (hdRun σ fs).1 = σ ∨ (hdRun σ fs).1 = none ∨
      ∃ p ∈ fs, (hdRun σ fs).1 = some p.2
  | [], σ => Or.inl rfl
  | (hl, t) :: rest, σ => by
    simp only [hdRun]
    set σ' := if (hdCheck (9 / 10) (3 / 2) σ hl t).1 then none
      else (hdCheck (9 / 10) (3 / 2) σ hl t).2 with hσ'
    have hσcases : σ' = none ∨ σ' = σ ∨ σ' = some t := by
      rw [hσ']
      split
      · exact Or.inl rfl
      · exact (hdCheck_snd_cases (9 / 10) (3 / 2) σ hl t).imp id (Or.imp id (fun h => h))
    rcases hdRun_state rest σ' with h | h | ⟨p, hp, h⟩
    · rw [h]
      rcases hσcases with h2 | h2 | h2
      · exact Or.inr (Or.inl h2)
      · exact Or.inl h2
      · exact Or.inr (Or.inr ⟨(hl, t), List.mem_cons_self _ _, h2⟩)
    · exact Or.inr (Or.inl h)
    · exact Or.inr (Or.inr ⟨p, List.mem_cons_of_mem _ hp, h⟩)

/-- A continuous dwell of exactly 1.6 s above the threshold, starting from a
reset detector, produces exactly one detection. -/
lemma hdRun_dwell_one (fs : List (List ℚ × ℚ)) (p0 pl : List ℚ × ℚ)
    (hh : fs.head? = some p0) (hl : fs.getLast? = some pl)
    (hg : ∀ p ∈ fs, goodFrame p)
    (hsort : List.Pairwise (· ≤ ·) (fs.map Prod.snd))
    (hspan : pl.2 = p0.2 + 8 / 5) :
    (hdRun none fs).2 = 1 := by
  cases fs with
  | nil => exact absurd hh (by simp)
  | cons q rest =>
    obtain ⟨hlm, t⟩ := q
    have hq : p0 = (hlm, t) := by
      rw [List.head?_cons, Option.some.injEq] at hh
      exact hh.symm
    subst hq
    have hrest_ne : rest ≠ [] := by
      intro hcon
      subst hcon
      rw [List.getLast?_singleton, Option.some.injEq] at hl
      rw [← hl] at hspan
      simp only at hspan
      linarith
    have hlast_rest : rest.getLast? = some pl := by
      cases rest with
      | nil => exact absurd rfl hrest_ne
      | cons x xs => rw [← List.getLast?_cons_cons (a := (hlm, t))]; exact hl
    have hplmem : pl ∈ rest := hdLast_mem rest pl hlast_rest
    rw [hdRun_cons_nofire hlm t rest _ (some t)
      (hdCheck_good_none hlm t (hg _ (List.mem_cons_self _ _)))]
    rw [List.map_cons] at hsort
    have hpc := List.pairwise_cons.mp hsort
    apply hdRun_one_some rest t (fun p hp => hg p (List.mem_cons_of_mem _ hp)) hpc.2
    · intro p hp
      have hple : p.2 ≤ pl.2 := sorted_le_last rest hpc.2 p hp pl hlast_rest
      simp only at hspan
      linarith
    · refine ⟨pl, hplmem, ?_⟩
      simp only at hspan
      rw [hspan]
      linarith

/-- A dwell of at most 1.0 s above the threshold produces no detection. -/
lemma hdRun_dwell_short (fs : List (List ℚ × ℚ)) (p0 pl : List ℚ × ℚ)
    (hh : fs.head? = some p0) (hl : fs.getLast? = some pl)
    (hg : ∀ p ∈ fs, goodFrame p)
    (hsort : List.Pairwise (· ≤ ·) (fs.map Prod.snd))
    (hspan : pl.2 ≤ p0.2 + 1) :
    (hdRun none fs).2 = 0 := by
  cases fs with
  | nil => rfl
  | cons q rest =>
    obtain ⟨hlm, t⟩ := q
    have hq : p0 = (hlm, t) := by
      rw [List.head?_cons, Option.some.injEq] at hh
      exact hh.symm
    subst hq
    rw [hdRun_cons_nofire hlm t rest _ (some t)
      (hdCheck_good_none hlm t (hg _ (List.mem_cons_self _ _)))]
    rw [List.map_cons] at hsort
    have hpc := List.pairwise_cons.mp hsort
    rw [hdRun_zero_some rest t (fun p hp => hg p (List.mem_cons_of_mem _ hp))
      (fun p hp => by
        cases rest with
        | nil => exact absurd hp (List.not_mem_nil p)
        | cons x xs =>
          have hlast_rest : (x :: xs).getLast? = some pl := by
            rw [← List.getLast?_cons_cons (a := (hlm, t))]
            exact hl
          have hple : p.2 ≤ pl.2 := sorted_le_last (x :: xs) hpc.2 p hp pl hlast_rest
          simp only at hspan
          linarith)]

/-- After a detection and the orchestrator reset, a second full dwell fires
again: two back-to-back 1.6 s dwells yield at least two detections. -/
lemma hdRun_dwell_twice (d1 d2 : List (List ℚ × ℚ)) (p0 pl q0 ql : List ℚ × ℚ)
    (h1h : d1.head? = some p0) (h1l : d1.getLast? = some pl)
    (h2h : d2.head? = some q0) (h2l : d2.getLast? = some ql)
    (hg : ∀ p ∈ d1 ++ d2, goodFrame p)
    (hsort : List.Pairwise (· ≤ ·) ((d1 ++ d2).map Prod.snd))
    (hs1 : pl.2 = p0.2 + 8 / 5) (hs2 : ql.2 = q0.2 + 8 / 5) :
    2 ≤ (hdRun none (d1 ++ d2)).2 := by
  rw [List.map_append] at hsort
  have hpa := List.pairwise_append.mp hsort
  have hc1 : (hdRun none d1).2 = 1 := by
    apply hdRun_dwell_one d1 p0 pl h1h h1l
      (fun p hp => hg p (List.mem_append_left _ hp)) hpa.1 hs1
  have hq0mem : q0 ∈ d2 := by
    cases d2 with
    | nil => exact absurd h2h (by simp)
    | cons x xs =>
      rw [List.head?_cons, Option.some.injEq] at h2h
      rw [← h2h]
      exact List.mem_cons_self x xs
  have hqlmem : ql ∈ d2 := hdLast_mem d2 ql h2l
  have hq0le : q0.2 ≤ ql.2 := by rw [hs2]; linarith
  have hc2 : 1 ≤ (hdRun (hdRun none d1).1 d2).2 := by
    rcases hdRun_state d1 none with h | h | ⟨p, hp, h⟩
    · rw [h]
      exact hdRun_fire_none d2 q0 (fun p hp => hg p (List.mem_append_right _ hp)) h2h
        ⟨ql, hqlmem, by rw [hs2]; linarith⟩
    · rw [h]
      exact hdRun_fire_none d2 q0 (fun p hp => hg p (List.mem_append_right _ hp)) h2h
        ⟨ql, hqlmem, by rw [hs2]; linarith⟩
    · rw [h]
      apply hdRun_fire_some d2 p.2 (fun r hr => hg r (List.mem_append_right _ hr))
      refine ⟨ql, hqlmem, ?_⟩
      have hcross : p.2 ≤ q0.2 :=
        hpa.2.2 p.2 (List.mem_map_of_mem Prod.snd hp) q0.2 (List.mem_map_of_mem Prod.snd hq0mem)
      rw [hs2]
      linarith
  rw [hdRun_append]
  omega



/-! Shared step-shape lemmas for the validation-chain claims. -/

/-- A rejecting hand-validation outcome ((None, 0.0) with cleared snapshot)
leaves the gloss buffer untouched and emits no GLOSS event. -/
lemma stepFrame_reject (gClf tClf : Frame → Option String × ℚ) (st : SState)
    (gv : GlossVar) (fr : Frame)
    (hgp : glossPhase gClf st.previous_hand_landmarks gv fr = (some (none, 0), none, false)) :
    ∃ st' out, stepFrame gClf tClf st gv fr = Except.ok (st', some (none, 0), out) ∧
      st'.previous_hand_landmarks = none ∧
      out.glossClassified = false ∧
      st'.recent_gloss_detections = st.recent_gloss_detections ∧
      (∀ e ∈ out.events, e.type ≠ EType.GLOSS) := by
  have hstep : stepFrame gClf tClf st gv fr =
      glossGate tClf st (hdCheck (9 / 10) (3 / 2) st.hands_down_start fr.hands fr.t)
        (some (none, 0), none, false) fr := by
    rw [stepFrame, hgp]
  rw [glossGate_assigned] at hstep
  dsimp only at hstep
  rw [if_neg (by simp [strTruthy])] at hstep
  refine ⟨_, _, hstep, rfl, rfl, rfl, ?_⟩
  intro e he
  dsimp only at he
  rw [List.mem_append, List.mem_append] at he
  rcases he with (he | he) | he
  · rw [hdEventsOf_types _ e he]
    intro hcon
    cases hcon
  · exact absurd he (by simp)
  · rw [tonePhase_types _ _ _ _ e he]
    intro hcon
    cases hcon

/-- A hand-validation outcome where the snapshot is updated but motion failed:
gloss classification skipped, buffer untouched, no GLOSS event. -/
lemma stepFrame_static_shape (gClf tClf : Frame → Option String × ℚ) (st : SState)
    (gv : GlossVar) (fr : Frame)
    (hgp : glossPhase gClf st.previous_hand_landmarks gv fr =
      (some (none, 0), some fr.hands, false)) :
    ∃ st' out, stepFrame gClf tClf st gv fr = Except.ok (st', some (none, 0), out) ∧
      st'.previous_hand_landmarks = some fr.hands ∧
      out.glossClassified = false ∧
      st'.recent_gloss_detections = st.recent_gloss_detections ∧
      (∀ e ∈ out.events, e.type ≠ EType.GLOSS) := by
  have hstep : stepFrame gClf tClf st gv fr =
      glossGate tClf st (hdCheck (9 / 10) (3 / 2) st.hands_down_start fr.hands fr.t)
        (some (none, 0), some fr.hands, false) fr := by
    rw [stepFrame, hgp]
  rw [glossGate_assigned] at hstep
  dsimp only at hstep
  rw [if_neg (by simp [strTruthy])] at hstep
  refine ⟨_, _, hstep, rfl, rfl, rfl, ?_⟩
  intro e he
  dsimp only at he
  rw [List.mem_append, List.mem_append] at he
  rcases he with (he | he) | he
  · rw [hdEventsOf_types _ e he]
    intro hcon
    cases hcon
  · exact absurd he (by simp)
  · rw [tonePhase_types _ _ _ _ e he]
    intro hcon
    cases hcon

/-- A passing hand-validation outcome: classifier invoked, snapshot updated. -/
lemma stepFrame_classify_shape (gClf tClf : Frame → Option String × ℚ) (st : SState)
    (gv : GlossVar) (fr : Frame)
    (hgp : glossPhase gClf st.previous_hand_landmarks gv fr =
      (some (gClf fr), some fr.hands, true)) :
    ∃ st' out, stepFrame gClf tClf st gv fr = Except.ok (st', some (gClf fr), out) ∧
      st'.previous_hand_landmarks = some fr.hands ∧
      out.glossClassified = true := by
  have hstep : stepFrame gClf tClf st gv fr =
      glossGate tClf st (hdCheck (9 / 10) (3 / 2) st.hands_down_start fr.hands fr.t)
        (some (gClf fr), some fr.hands, true) fr := by
    rw [stepFrame, hgp]
  rw [glossGate_assigned] at hstep
  exact ⟨_, _, hstep, rfl, rfl⟩



/-! Gloss-buffer window support (claim C2). -/

lemma trimmed_concat (buffer : List (String × ℚ)) (x : String × ℚ) :
    ∃ B : List (String × ℚ),
      (if 5 < (buffer ++ [x]).length then (buffer ++ [x]).tail else buffer ++ [x]) =
        B ++ [x] := by
  split_ifs with h
  · cases buffer with
    | nil => simp at h
    | cons b bs => exact ⟨bs, by simp⟩
  · exact ⟨buffer, rfl⟩

lemma allSame_mem (x : String) (xs : List String) (h : allSame (x :: xs) = true) :
    ∀ y ∈ xs, y = x := by
  intro y hy
  rw [allSame, List.all_eq_true] at h
  simpa using h y hy

lemma allSame_concat_headD (C : List String) (l : String)
    (h : allSame (C ++ [l]) = true) : (C ++ [l]).headD "" = l := by
  cases C with
  | nil => rfl
  | cons x C' =>
    have hx : l = x := allSame_mem x (C' ++ [l]) (by rwa [List.cons_append] at h) l
      (List.mem_append_right _ (List.mem_singleton_self l))
    rw [List.cons_append, List.headD_cons]
    exact hx.symm

lemma allSame_window_headD (B : List (String × ℚ)) (l : String) (c : ℚ) (k : ℕ)
    (hk : k ≤ B.length)
    (hall : allSame (((B ++ [(l, c)]).drop k).map Prod.fst) = true) :
    (((B ++ [(l, c)]).drop k).map Prod.fst).headD "" = l := by
  rw [List.drop_append_of_le_length hk] at hall ⊢
  rw [List.map_append, List.map_singleton] at hall ⊢
  exact allSame_concat_headD _ l hall

/-- C2: gloss-consistency decision rule. After appending the (label, confidence)
pair and trimming the buffer to capacity 5, the step emits exactly one GLOSS
event carrying the shared label and the current confidence and clears the whole
buffer when the most recent three labels all agree; clears the buffer without
emitting when they disagree; and keeps the (trimmed) buffer without emitting
when fewer than three entries exist. -/
theorem C2_gloss_consistency_rule (buffer : List (String × ℚ)) (label : String) (conf : ℚ)
    (trimmed : List (String × ℚ))
    (heq : trimmed = if 5 < (buffer ++ [(label, conf)]).length
      then (buffer ++ [(label, conf)]).tail else buffer ++ [(label, conf)]) :
    (trimmed.length < 3 → glossBufferStep buffer label conf = ⟨trimmed, none, false⟩) ∧
    (3 ≤ trimmed.length →
      allSame ((trimmed.drop (trimmed.length - 3)).map Prod.fst) = true →
      glossBufferStep buffer label conf = ⟨[], some ⟨EType.GLOSS, label, conf⟩, true⟩) ∧
    (3 ≤ trimmed.length →
      allSame ((trimmed.drop (trimmed.length - 3)).map Prod.fst) = false →
      glossBufferStep buffer label conf = ⟨[], none, false⟩) := by
  obtain ⟨B, hB⟩ := trimmed_concat buffer (label, conf)
  rw [hB] at heq
  subst heq
  simp only [glossBufferStep]
  rw [hB]
  refine ⟨?_, ?_, ?_⟩
  · intro h3
    rw [if_neg (by omega)]
  · intro h3 hall
    rw [if_pos h3, if_pos hall]
    have hklen : (B ++ [(label, conf)]).length - 3 ≤ B.length := by
      rw [List.length_append, List.length_singleton]
      omega
    rw [allSame_window_headD B label conf _ hklen hall]
  · intro h3 hall
    rw [if_pos h3, if_neg (fun hcon => by rw [hcon] at hall; exact Bool.noConfusion hall)]

/-- Witness for C2: a two-entry HELLO buffer plus a third HELLO detection emits
a GLOSS event with the current confidence and clears the buffer. -/
theorem C2_witness :
    glossBufferStep [("HELLO", 1 / 2), ("HELLO", 1 / 2)] "HELLO" (19 / 20) =
      ⟨[], some ⟨EType.GLOSS, "HELLO", 19 / 20⟩, true⟩ :=
  (C2_gloss_consistency_rule [("HELLO", 1 / 2), ("HELLO", 1 / 2)] "HELLO" (19 / 20)
      [("HELLO", 1 / 2), ("HELLO", 1 / 2), ("HELLO", 19 / 20)] (by simp)).2.1
    (by simp) (by simp [allSame])

/-- C1: the gloss buffer, previous-landmark snapshot and tone-dedup state live
on the shared servicer, not on the connection; only the hands-down timer is
reset per stream. After connection 1 processes two high-confidence HELLO
frames, its two buffered detections survive the per-stream reset, so connection
2's very first frame emits a GLOSS event that a freshly initialised state would
not emit. -/
theorem C1_shared_state_across_connections :
    streamLandmarks gClfHello tClfNone initState [F0, F1] = (st2, [], false) ∧
    st2.recent_gloss_detections = [("HELLO", 19 / 20), ("HELLO", 19 / 20)] ∧
    streamStart st2 = st2 ∧
    (streamLandmarks gClfHello tClfNone st2 [F2]).2.1 =
      [⟨EType.GLOSS, "HELLO", 19 / 20⟩] ∧
    (streamLandmarks gClfHello tClfNone initState [F2]).2.1 = [] := by
  refine ⟨?_, rfl, rfl, ?_, ?_⟩
  · rw [streamLandmarks, show streamStart initState = initState from rfl, run_conn1]
  · rw [streamLandmarks, show streamStart st2 = st2 from rfl, run_conn2_shared]
  · rw [streamLandmarks, show streamStart initState = initState from rfl, run_conn2_fresh]

/-- C4: an empty-hands frame is not inert. With the gloss label local still
holding the previous frame's stale high-confidence value, the empty-hands frame
appends that stale value to the consistency buffer and emits a GLOSS event even
though gloss classification was skipped on that frame; over the whole trace
[F0, F1, empty], the GLOSS fires on the no-hands frame. -/
theorem C4_stale_gloss_on_empty_frame :
    Fempty.hands = [] ∧
    runFrames gClfHello tClfNone initState none [F0, F1] = (st2, [], false) ∧
    (∃ st' out, stepFrame gClfHello tClfNone st2 (some (some "HELLO", 19 / 20)) Fempty =
      Except.ok (st', some (some "HELLO", 19 / 20), out) ∧
      out.glossClassified = false ∧
      (∃ e ∈ out.events, e.type = EType.GLOSS ∧ e.label = "HELLO") ∧
      st'.recent_gloss_detections = []) ∧
    runFrames gClfHello tClfNone initState none [F0, F1, Fempty] =
      (⟨[], some F1.hands, none, false, none⟩, [⟨EType.GLOSS, "HELLO", 19 / 20⟩],
        false) := by
  refine ⟨rfl, run_conn1, ?_, run_stale⟩
  refine ⟨_, _, step_Fempty_stale, rfl, ?_, rfl⟩
  exact ⟨⟨EType.GLOSS, "HELLO", 19 / 20⟩, List.mem_singleton_self _, rfl, rfl⟩

/-- C10: a stream whose first frame has an empty hands sequence hits the
unassigned gloss-label local: the handler terminates the stream with INTERNAL
status (error flag true) after emitting no events, with only the hands-down
timer touched; and the gloss-label variable only ever changes on a frame whose
hands sequence is non-empty. -/
theorem C10_unassigned_gloss_label (gClf tClf : Frame → Option String × ℚ) :
    (∀ (st : SState) (fr : Frame) (rest : List Frame), fr.hands = [] →
      streamLandmarks gClf tClf st (fr :: rest) =
        ({ st with hands_down_start := none }, [], true)) ∧
    (∀ (st : SState) (gv : GlossVar) (fr : Frame) (st' : SState) (gv' : GlossVar)
      (out : StepOut), stepFrame gClf tClf st gv fr = Except.ok (st', gv', out) →
      gv' ≠ gv → fr.hands ≠ []) := by
  constructor
  · intro st fr rest h
    exact streamLandmarks_empty_first gClf tClf st fr rest h
  · intro st gv fr st' gv' out h hne hcon
    obtain ⟨glc, pr, b, gr, hgp, -, -, hgv, -⟩ :=
      stepFrame_ok_destruct gClf tClf st gv fr st' gv' out h
    rw [glossPhase_skip gClf st.previous_hand_landmarks gv fr
      (by rw [hcon]; rfl)] at hgp
    rw [Prod.mk.injEq] at hgp
    exact hne (by rw [hgv, hgp.1])

/-- Witness for C10: the concrete empty-hands first frame terminates the stream
with the error flag set and no events. -/
theorem C10_witness :
    streamLandmarks gClfHello tClfNone initState [Fempty] =
      ({ initState with hands_down_start := none }, [], true) :=
  (C10_unassigned_gloss_label gClfHello tClfNone).1 initState Fempty [] rfl



lemma countP_blockGhost : blockGhost.countP densP = 1 := by
  rw [show blockGhost = hand3 (0, 0, 0) (0, 0, 0) (9 / 10, 0, 0) from rfl]
  rw [countP_hand3]
  rw [countP_triple_false densP _ _ _ densP_zero densP_zero densP_zero]
  rw [show [(9 : ℚ) / 10, 0, 0].countP densP = 1 by
    rw [List.countP_cons, List.countP_cons, List.countP_cons, List.countP_nil]
    rw [densP_zero, densP_pos _ (by norm_num) (by norm_num)]
    rfl]

/-- C3 counterexample: in the run [F0, F1, F2, F3] the third frame F2 emits a
GLOSS event and the tone classifier runs on that very same frame
(toneClassified is true there), while on the immediately following frame F3 the
tone classifier does not run at all — the opposite of the claimed edge
timing. -/
theorem C3_counterexample :
    runFrames gClfHello tClfNone initState none [F0, F1] = (st2, [], false) ∧
    (∃ out : StepOut, stepFrame gClfHello tClfNone st2 (some (some "HELLO", 19 / 20)) F2 =
      Except.ok (st3, some (some "HELLO", 19 / 20), out) ∧
      (∃ e ∈ out.events, e.type = EType.GLOSS) ∧ out.toneClassified = true) ∧
    (∃ out : StepOut, stepFrame gClfHello tClfNone st3 (some (some "HELLO", 19 / 20)) F3 =
      Except.ok (⟨[("HELLO", 19 / 20)], some F3.hands, none, false, none⟩,
        some (some "HELLO", 19 / 20), out) ∧
      out.events = [] ∧ out.toneClassified = false) := by
  refine ⟨run_conn1, ⟨_, step_F2 _, ?_, rfl⟩, ⟨_, step_F3 _, rfl, rfl⟩⟩
  exact ⟨⟨EType.GLOSS, "HELLO", 19 / 20⟩, List.mem_singleton_self _, rfl⟩

/-- C3 amended: the tone classifier runs on the same frame as the GLOSS
emission, not on the following one. From any state whose flag is false (the
flag is false at every loop entry, since it is consumed in the very iteration
that sets it), a processed frame invokes the tone classifier exactly when that
frame itself emitted a GLOSS event, and the flag leaves the frame false again
in every case. -/
theorem C3_amended_tone_same_frame (gClf tClf : Frame → Option String × ℚ) (st : SState)
    (gv : GlossVar) (fr : Frame) (hflag : st.last_gloss_yielded = false) :
    (∀ st' gv' out, stepFrame gClf tClf st gv fr = Except.ok (st', gv', out) →
      (out.toneClassified = true ↔ ∃ e ∈ out.events, e.type = EType.GLOSS) ∧
      st'.last_gloss_yielded = false) ∧
    (∀ e, stepFrame gClf tClf st gv fr = Except.error e →
      e.2.last_gloss_yielded = false) := by
  constructor
  · intro st' gv' out h
    obtain ⟨glc, pr, b, gr, hgp, hgr, hst, hgv, hout⟩ :=
      stepFrame_ok_destruct gClf tClf st gv fr st' gv' out h
    subst hst hgv hout hgr
    refine ⟨?_, tonePhase_flag_after tClf st.last_tone_event _ fr⟩
    dsimp only
    rw [tonePhase_classified, hflag, Bool.false_or]
    by_cases hc : strTruthy glc.1 = true ∧ 9 / 10 ≤ glc.2
    · rw [if_pos hc]
      rw [glossBufferStep_yielded_iff]
      constructor
      · intro hsome
        obtain ⟨e, hev⟩ := Option.isSome_iff_exists.mp hsome
        refine ⟨e, ?_, (glossBufferStep_event_type _ _ _ e hev).1⟩
        simp [List.mem_append, hev]
      · rintro ⟨e, he, het⟩
        rw [List.mem_append, List.mem_append] at he
        rcases he with (he | he) | he
        · have := hdEventsOf_types _ e he
          rw [het] at this
          cases this
        · rw [Option.mem_toList, Option.mem_def] at he
          rw [he]
          rfl
        · have := tonePhase_types _ _ _ _ e he
          rw [het] at this
          cases this
    · rw [if_neg hc]
      constructor
      · intro hcon
        cases hcon
      · rintro ⟨e, he, het⟩
        rw [List.mem_append, List.mem_append] at he
        rcases he with (he | he) | he
        · have := hdEventsOf_types _ e he
          rw [het] at this
          cases this
        · exact absurd he (by simp)
        · have := tonePhase_types _ _ _ _ e he
          rw [het] at this
          cases this
  · intro e h
    obtain ⟨-, -, he⟩ := stepFrame_error_destruct _ _ _ _ _ _ h
    rw [he]
    exact hflag

/-- Witness for the C3 amended theorem at the concrete F3 step from `st3`. -/
theorem C3_amended_witness :
    st3.last_gloss_yielded = false ∧
    (((⟨[], true, false⟩ : StepOut).toneClassified = true ↔
      ∃ e ∈ (⟨[], true, false⟩ : StepOut).events, e.type = EType.GLOSS) ∧
    (⟨[("HELLO", 19 / 20)], some F3.hands, none, false, none⟩ : SState).last_gloss_yielded =
      false) :=
  ⟨rfl, (C3_amended_tone_same_frame gClfHello tClfNone st3
    (some (some "HELLO", 19 / 20)) F3 rfl).1 _ _ _ (step_F3 _)⟩

/-- C5: the motion gate. On a frame that passes hand-count, density and span
validation, the step succeeds, the previous-landmark snapshot is
unconditionally replaced by the current hands, and the gloss classifier is
invoked exactly when motion is reported: always when no prior snapshot exists,
and otherwise exactly when the average per-triplet displacement reaches 0.01.
An identical snapshot yields no classifier call, and a skipped classification
leaves the gloss buffer untouched and emits no GLOSS event. -/
theorem C5_motion_gate (gClf tClf : Frame → Option String × ℚ) (st : SState)
    (gv : GlossVar) (fr : Frame) (h0 : ¬fr.hands.length / 63 = 0)
    (hv : validHandDetected fr.hands (fr.hands.length / 63) = true)
    (hs : validSpanFound fr.hands (fr.hands.length / 63)) :
    ∃ st' gv' out, stepFrame gClf tClf st gv fr = Except.ok (st', gv', out) ∧
      st'.previous_hand_landmarks = some fr.hands ∧
      (out.glossClassified = true ↔
        handsMoved fr.hands st.previous_hand_landmarks (fr.hands.length / 63)) ∧
      (st.previous_hand_landmarks = none → out.glossClassified = true) ∧
      (∀ prev, st.previous_hand_landmarks = some prev →
        (motionData fr.hands prev (fr.hands.length / 63)).2 ≠ 0 →
        (out.glossClassified = true ↔
          (1 : ℝ) / 100 ≤ (motionData fr.hands prev (fr.hands.length / 63)).1 /
            ((motionData fr.hands prev (fr.hands.length / 63)).2 : ℝ))) ∧
      (st.previous_hand_landmarks = some fr.hands → out.glossClassified = false) ∧
      (out.glossClassified = false →
        (∀ e ∈ out.events, e.type ≠ EType.GLOSS) ∧
        st'.recent_gloss_detections = st.recent_gloss_detections) := by
  have hne : fr.hands ≠ [] := by
    intro hcon
    rw [hcon] at h0
    exact h0 rfl
  by_cases hm : handsMoved fr.hands st.previous_hand_landmarks (fr.hands.length / 63)
  · obtain ⟨st', out, hstep, hprev, hcls⟩ := stepFrame_classify_shape gClf tClf st gv fr
      (glossPhase_moved gClf st.previous_hand_landmarks gv fr h0 hv hs hm hne)
    refine ⟨st', _, out, hstep, hprev, ⟨fun _ => hm, fun _ => hcls⟩, fun _ => hcls,
      ?_, ?_, ?_⟩
    · intro prev hp hn2
      rw [hp] at hm
      simp only [handsMoved] at hm
      rw [if_neg hn2] at hm
      exact ⟨fun _ => hm, fun _ => hcls⟩
    · intro hpself
      rw [hpself] at hm
      exact absurd hm (not_handsMoved_self fr.hands _ (by omega) (by omega))
    · intro hcon
      rw [hcls] at hcon
      cases hcon
  · obtain ⟨st', out, hstep, hprev, hcls, hbuf, hnog⟩ := stepFrame_static_shape gClf tClf
      st gv fr (glossPhase_static gClf st.previous_hand_landmarks gv fr h0 hv hs hm hne)
    refine ⟨st', _, out, hstep, hprev, ?_, ?_, ?_, fun _ => hcls, fun _ => ⟨hnog, hbuf⟩⟩
    · constructor
      · intro hcon
        rw [hcls] at hcon
        cases hcon
      · intro hmc
        exact absurd hmc hm
    · intro hpn
      rw [hpn] at hm
      exact absurd trivial hm
    · intro prev hp hn2
      rw [hp] at hm
      simp only [handsMoved] at hm
      rw [if_neg hn2] at hm
      constructor
      · intro hcon
        rw [hcls] at hcon
        cases hcon
      · intro hle
        exact absurd hle hm

/-- Witness for C5 on the concrete two-hand frame from the initial state. -/
theorem C5_witness :
    ∃ st' gv' out, stepFrame gClfNone tClfNone initState none frameGhostPair =
      Except.ok (st', gv', out) ∧
      st'.previous_hand_landmarks = some frameGhostPair.hands ∧
      (out.glossClassified = true ↔
        handsMoved frameGhostPair.hands initState.previous_hand_landmarks
          (frameGhostPair.hands.length / 63)) ∧
      (initState.previous_hand_landmarks = none → out.glossClassified = true) ∧
      (∀ prev, initState.previous_hand_landmarks = some prev →
        (motionData frameGhostPair.hands prev (frameGhostPair.hands.length / 63)).2 ≠ 0 →
        (out.glossClassified = true ↔
          (1 : ℝ) / 100 ≤
            (motionData frameGhostPair.hands prev (frameGhostPair.hands.length / 63)).1 /
            ((motionData frameGhostPair.hands prev
              (frameGhostPair.hands.length / 63)).2 : ℝ))) ∧
      (initState.previous_hand_landmarks = some frameGhostPair.hands →
        out.glossClassified = false) ∧
      (out.glossClassified = false →
        (∀ e ∈ out.events, e.type ≠ EType.GLOSS) ∧
        st'.recent_gloss_detections = initState.recent_gloss_detections) :=
  C5_motion_gate gClfNone tClfNone initState none frameGhostPair
    (by rw [show frameGhostPair.hands = blockDense ++ blockGhost from rfl,
          ghostPair_length]
        norm_num)
    (by rw [show frameGhostPair.hands = blockDense ++ blockGhost from rfl,
          ghostPair_length]
        exact validHandDetected_pair_left _ _ (hand3_length _ _ _) (hand3_length _ _ _)
          (by rw [countP_blockDense]; norm_num))
    (by rw [show frameGhostPair.hands = blockDense ++ blockGhost from rfl,
          ghostPair_length]
        exact validSpanFound_ghostPair)

/-- C6 counterexample: the span loop is not restricted to density-passing
blocks. In `frameGhostPair` only the dense block passes density, and that block
has span below 0.08; the claimed behaviour is therefore "no valid hand". But
the ghost block (density count 1, far below 15) has span 0.9, the span loop
still inspects it, and the frame proceeds: the snapshot is stored and the
classifier is invoked. -/
theorem C6_counterexample :
    frameGhostPair.hands = blockDense ++ blockGhost ∧
    validHandDetected blockDense 1 = true ∧
    ¬validSpanFound blockDense 1 ∧
    blockGhost.countP densP = 1 ∧
    validSpanFound (blockDense ++ blockGhost) 2 ∧
    (∃ st' gv' out, stepFrame gClfNone tClfNone initState none frameGhostPair =
      Except.ok (st', gv', out) ∧ out.glossClassified = true ∧
      st'.previous_hand_landmarks = some frameGhostPair.hands) := by
  refine ⟨rfl, ?_, not_validSpanFound_blockDense, countP_blockGhost,
    validSpanFound_ghostPair, ?_⟩
  · exact validHandDetected_uHand (1 / 2) (1 / 2) (by norm_num) (by norm_num)
      (by norm_num) (by norm_num)
  · exact ⟨_, _, _, step_ghostPair, rfl, rfl⟩

/-- C6 amended: the span loop ranges over every hand sub-block, whatever its
density. When no sub-block at all (density-passing or not) reaches span 0.08,
on a frame that passes the count and density stages the frame is treated as
having no valid hand: classification is skipped, the buffer is untouched, no
GLOSS event is emitted, and the previous-landmark snapshot is reset to
absent. -/
theorem C6_amended_span_all_blocks (gClf tClf : Frame → Option String × ℚ) (st : SState)
    (gv : GlossVar) (fr : Frame) (h0 : ¬fr.hands.length / 63 = 0)
    (hv : validHandDetected fr.hands (fr.hands.length / 63) = true)
    (hs : ∀ i < fr.hands.length / 63, ¬fr.hands.length < i * 63 + 63 →
      calculateHandSpan ((fr.hands.drop (i * 63)).take 63) < (8 : ℝ) / 100) :
    ∃ st' out, stepFrame gClf tClf st gv fr = Except.ok (st', some (none, 0), out) ∧
      st'.previous_hand_landmarks = none ∧
      out.glossClassified = false ∧
      st'.recent_gloss_detections = st.recent_gloss_detections ∧
      (∀ e ∈ out.events, e.type ≠ EType.GLOSS) := by
  have hns : ¬validSpanFound fr.hands (fr.hands.length / 63) := by
    rintro ⟨i, hi, hlen, hsp⟩
    exact absurd hsp (not_le.mpr (hs i hi hlen))
  exact stepFrame_reject gClf tClf st gv fr
    (glossPhase_span_fail gClf st.previous_hand_landmarks gv fr h0 hv hns)

/-- Witness for the C6 amended theorem: a single dense block with span zero. -/
theorem C6_amended_witness :
    ∃ st' out, stepFrame gClfNone tClfNone initState none frameAllGhost =
      Except.ok (st', some (none, 0), out) ∧
      st'.previous_hand_landmarks = none ∧
      out.glossClassified = false ∧
      st'.recent_gloss_detections = initState.recent_gloss_detections ∧
      (∀ e ∈ out.events, e.type ≠ EType.GLOSS) :=
  C6_amended_span_all_blocks gClfNone tClfNone initState none frameAllGhost
    (by rw [show frameAllGhost.hands = blockDense from rfl,
          show blockDense.length = 63 from hand3_length _ _ _]
        norm_num)
    (by rw [show frameAllGhost.hands = blockDense from rfl,
          show blockDense.length = 63 from hand3_length _ _ _]
        exact validHandDetected_uHand (1 / 2) (1 / 2) (by norm_num) (by norm_num)
          (by norm_num) (by norm_num))
    (by rw [show frameAllGhost.hands = blockDense from rfl,
          show blockDense.length = 63 from hand3_length _ _ _]
        intro i hi hg
        have hi0 : i = 0 := by omega
        subst hi0
        rw [Nat.zero_mul, List.drop_zero]
        rw [show blockDense.take 63 = blockDense by
          rw [show (63 : ℕ) = blockDense.length from (hand3_length _ _ _).symm,
            List.take_length]]
        rw [show blockDense = hand3 ((1 : ℚ) / 2, 1 / 2, 1 / 2) (1 / 2, 1 / 2, 1 / 2)
          (1 / 2, 1 / 2, 1 / 2) from rfl]
        rw [calculateHandSpan_hand3, dist3_fst_eq]
        norm_num)

/-- C7: the density check. A frame in which every 63-float hand sub-block has
fewer than 15 coordinates of magnitude above 0.001 fails hand validation:
classification is skipped, the buffer is untouched, no GLOSS event is emitted
and the snapshot is reset to absent. In general a hand is reported present
exactly when some complete sub-block has at least 15 such coordinates. -/
theorem C7_density_check (gClf tClf : Frame → Option String × ℚ) (st : SState)
    (gv : GlossVar) (fr : Frame) (h0 : ¬fr.hands.length / 63 = 0)
    (hall : ∀ i < fr.hands.length / 63,
      ((fr.hands.drop (i * 63)).take 63).countP densP < 15) :
    validHandDetected fr.hands (fr.hands.length / 63) = false ∧
    (∀ (hl : List ℚ) (n : ℕ), validHandDetected hl n = true ↔
      ∃ i < n, ¬hl.length < i * 63 + 63 ∧
        15 ≤ ((hl.drop (i * 63)).take 63).countP densP) ∧
    ∃ st' out, stepFrame gClf tClf st gv fr = Except.ok (st', some (none, 0), out) ∧
      st'.previous_hand_landmarks = none ∧
      out.glossClassified = false ∧
      st'.recent_gloss_detections = st.recent_gloss_detections ∧
      (∀ e ∈ out.events, e.type ≠ EType.GLOSS) := by
  have hiff : ∀ (hl : List ℚ) (n : ℕ), validHandDetected hl n = true ↔
      ∃ i < n, ¬hl.length < i * 63 + 63 ∧
        15 ≤ ((hl.drop (i * 63)).take 63).countP densP := by
    intro hl n
    rw [validHandDetected, List.any_eq_true]
    constructor
    · rintro ⟨i, hi, hp⟩
      rw [List.mem_range] at hi
      by_cases hg : hl.length < i * 63 + 63
      · rw [if_pos hg] at hp
        cases hp
      · rw [if_neg hg] at hp
        exact ⟨i, hi, hg, of_decide_eq_true hp⟩
    · rintro ⟨i, hi, hg, hc⟩
      refine ⟨i, List.mem_range.mpr hi, ?_⟩
      rw [if_neg hg]
      exact decide_eq_true hc
  have hfalse : validHandDetected fr.hands (fr.hands.length / 63) = false := by
    rw [Bool.eq_false_iff]
    intro hcon
    obtain ⟨i, hi, -, hc⟩ := (hiff _ _).mp hcon
    exact absurd hc (not_le.mpr (hall i hi))
  exact ⟨hfalse, hiff, stepFrame_reject gClf tClf st gv fr
    (glossPhase_density_fail gClf st.previous_hand_landmarks gv fr h0 hfalse)⟩

/-- Witness for C7 on the all-zero single-hand frame. -/
theorem C7_witness :
    validHandDetected frameZeros.hands (frameZeros.hands.length / 63) = false ∧
    (∀ (hl : List ℚ) (n : ℕ), validHandDetected hl n = true ↔
      ∃ i < n, ¬hl.length < i * 63 + 63 ∧
        15 ≤ ((hl.drop (i * 63)).take 63).countP densP) ∧
    ∃ st' out, stepFrame gClfNone tClfNone initState none frameZeros =
      Except.ok (st', some (none, 0), out) ∧
      st'.previous_hand_landmarks = none ∧
      out.glossClassified = false ∧
      st'.recent_gloss_detections = initState.recent_gloss_detections ∧
      (∀ e ∈ out.events, e.type ≠ EType.GLOSS) :=
  C7_density_check gClfNone tClfNone initState none frameZeros
    (by rw [show frameZeros.hands = hand3 (0, 0, 0) (0, 0, 0) (0, 0, 0) from rfl,
          hand3_length]
        norm_num)
    (by rw [show frameZeros.hands = hand3 (0, 0, 0) (0, 0, 0) (0, 0, 0) from rfl,
          hand3_length]
        intro i hi
        have hi0 : i = 0 := by omega
        subst hi0
        rw [Nat.zero_mul, List.drop_zero]
        rw [show (hand3 ((0 : ℚ), 0, 0) (0, 0, 0) (0, 0, 0)).take 63 =
            hand3 ((0 : ℚ), 0, 0) (0, 0, 0) (0, 0, 0) by
          rw [show (63 : ℕ) = (hand3 ((0 : ℚ), 0, 0) (0, 0, 0) (0, 0, 0)).length from
            (hand3_length _ _ _).symm, List.take_length]]
        rw [countP_hand3, countP_triple_false densP _ _ _ densP_zero densP_zero densP_zero]
        norm_num)




/-- C8: hands-down dwell timing. Over any good frame sequence (hands present,
effective wrist-y above 0.9 throughout) with non-decreasing timestamps, a dwell
spanning exactly 1.6 seconds from a cleared timer fires exactly one HANDS_DOWN
detection, a dwell spanning at most 1.0 second fires none, and two consecutive
1.6-second dwells (the timer being reset by the orchestrator after each fire)
fire at least twice. -/
theorem C8_hands_down_dwell :
    (∀ (fs : List (List ℚ × ℚ)) (p0 pl : List ℚ × ℚ),
      fs.head? = some p0 → fs.getLast? = some pl →
      (∀ p ∈ fs, goodFrame p) →
      List.Pairwise (· ≤ ·) (fs.map Prod.snd) →
      pl.2 = p0.2 + 8 / 5 → (hdRun none fs).2 = 1) ∧
    (∀ (fs : List (List ℚ × ℚ)) (p0 pl : List ℚ × ℚ),
      fs.head? = some p0 → fs.getLast? = some pl →
      (∀ p ∈ fs, goodFrame p) →
      List.Pairwise (· ≤ ·) (fs.map Prod.snd) →
      pl.2 ≤ p0.2 + 1 → (hdRun none fs).2 = 0) ∧
    (∀ (d1 d2 : List (List ℚ × ℚ)) (p0 pl q0 ql : List ℚ × ℚ),
      d1.head? = some p0 → d1.getLast? = some pl →
      d2.head? = some q0 → d2.getLast? = some ql →
      (∀ p ∈ d1 ++ d2, goodFrame p) →
      List.Pairwise (· ≤ ·) ((d1 ++ d2).map Prod.snd) →
      pl.2 = p0.2 + 8 / 5 → ql.2 = q0.2 + 8 / 5 →
      2 ≤ (hdRun none (d1 ++ d2)).2) :=
  ⟨hdRun_dwell_one, hdRun_dwell_short, hdRun_dwell_twice⟩

/-- Witness for C8 on concrete three-landmark hands with wrist-y 0.95. -/
theorem C8_witness :
    (hdRun none [([0, 19 / 20, 0], (0 : ℚ)), ([0, 19 / 20, 0], 8 / 5)]).2 = 1 ∧
    (hdRun none [([0, 19 / 20, 0], (0 : ℚ)), ([0, 19 / 20, 0], 1)]).2 = 0 ∧
    2 ≤ (hdRun none ([([0, 19 / 20, 0], (0 : ℚ)), ([0, 19 / 20, 0], 8 / 5)] ++
      [([0, 19 / 20, 0], (2 : ℚ)), ([0, 19 / 20, 0], 2 + 8 / 5)])).2 := by
  have hgood : ∀ (t : ℚ), goodFrame ([0, 19 / 20, 0], t) := by
    intro t
    refine ⟨by norm_num, ?_⟩
    show (9 : ℚ) / 10 < 19 / 20
    norm_num
  refine ⟨C8_hands_down_dwell.1 _ ([0, 19 / 20, 0], 0) ([0, 19 / 20, 0], 8 / 5)
      rfl rfl ?_ ?_ (by norm_num),
    C8_hands_down_dwell.2.1 _ ([0, 19 / 20, 0], 0) ([0, 19 / 20, 0], 1)
      rfl rfl ?_ ?_ (by norm_num),
    C8_hands_down_dwell.2.2 _ _ ([0, 19 / 20, 0], 0) ([0, 19 / 20, 0], 8 / 5)
      ([0, 19 / 20, 0], 2) ([0, 19 / 20, 0], 2 + 8 / 5)
      rfl rfl rfl rfl ?_ ?_ (by norm_num) (by norm_num)⟩
  · intro p hp
    rw [List.mem_cons, List.mem_singleton] at hp
    rcases hp with h | h <;> subst h <;> exact hgood _
  · rw [List.map_cons, List.map_cons, List.map_nil]
    exact List.Pairwise.cons (by intro b hb; rw [List.mem_singleton] at hb; subst hb; norm_num)
      (List.pairwise_singleton _ _)
  · intro p hp
    rw [List.mem_cons, List.mem_singleton] at hp
    rcases hp with h | h <;> subst h <;> exact hgood _
  · rw [List.map_cons, List.map_cons, List.map_nil]
    exact List.Pairwise.cons (by intro b hb; rw [List.mem_singleton] at hb; subst hb; norm_num)
      (List.pairwise_singleton _ _)
  · intro p hp
    rw [List.mem_append, List.mem_cons, List.mem_singleton, List.mem_cons,
      List.mem_singleton] at hp
    rcases hp with (h | h) | (h | h) <;> subst h <;> exact hgood _
  · show List.Pairwise (· ≤ ·) [(0 : ℚ), 8 / 5, 2, 2 + 8 / 5]
    refine List.Pairwise.cons ?_ (List.Pairwise.cons ?_ (List.Pairwise.cons ?_
      (List.pairwise_singleton _ _)))
    · intro b hb
      rw [List.mem_cons, List.mem_cons, List.mem_singleton] at hb
      rcases hb with h | h | h <;> subst h <;> norm_num
    · intro b hb
      rw [List.mem_cons, List.mem_singleton] at hb
      rcases hb with h | h <;> subst h <;> norm_num
    · intro b hb
      rw [List.mem_singleton] at hb
      subst hb
      norm_num

/-- C9: tone acceptance and deduplication. When the tone block runs, a TONE
event is emitted exactly when the classifier label is truthy with confidence at
least 0.80 and the label differs from the remembered last tone label; the
remembered label is updated exactly on emission. Consequently the TONE labels
of any stream's full output form a chain with no two equal adjacent labels. -/
theorem C9_tone_dedup (gClf tClf : Frame → Option String × ℚ) :
    (∀ (lt : Option String) (fr : Frame),
      ((tonePhase tClf lt true fr).1 ≠ [] ↔
        strTruthy (tClf fr).1 = true ∧ (8 : ℚ) / 10 ≤ (tClf fr).2 ∧
          lt ≠ some ((tClf fr).1.getD "")) ∧
      ((tonePhase tClf lt true fr).1 ≠ [] →
        (tonePhase tClf lt true fr).2.1 = some ((tClf fr).1.getD "")) ∧
      ((tonePhase tClf lt true fr).1 = [] → (tonePhase tClf lt true fr).2.1 = lt)) ∧
    (∀ (st : SState) (frames : List Frame),
      List.Chain' (· ≠ ·) (toneLabels (streamLandmarks gClf tClf st frames).2.1)) := by
  constructor
  · intro lt fr
    rw [tonePhase_true_eq]
    by_cases h1 : strTruthy (tClf fr).1 = true ∧ 8 / 10 ≤ (tClf fr).2
    · rw [if_pos h1]
      by_cases h2 : lt ≠ some ((tClf fr).1.getD "")
      · rw [if_pos h2]
        exact ⟨⟨fun _ => ⟨h1.1, h1.2, h2⟩, fun _ => by simp⟩, fun _ => rfl,
          fun hcon => absurd hcon (by simp)⟩
      · rw [if_neg h2]
        exact ⟨⟨fun hcon => absurd rfl hcon,
            fun h => absurd (not_not.mp h2) h.2.2⟩,
          fun hcon => absurd rfl hcon, fun _ => rfl⟩
    · rw [if_neg h1]
      exact ⟨⟨fun hcon => absurd rfl hcon, fun h => absurd ⟨h.1, h.2.1⟩ h1⟩,
        fun hcon => absurd rfl hcon, fun _ => rfl⟩
  · intro st frames
    rw [streamLandmarks]
    exact okSeq_chain _ _ (runFrames_okSeq gClf tClf frames (streamStart st) none)

/-- Witness for C9: a truthy 0.9-confidence ANGRY label with no previous tone
label emits and updates the remembered label. -/
theorem C9_witness :
    (tonePhase tClfAngry none true F0).1 ≠ [] ∧
    (tonePhase tClfAngry none true F0).2.1 = some "ANGRY" :=
  have h := (C9_tone_dedup gClfHello tClfAngry).1 none F0
  have hne : (tonePhase tClfAngry none true F0).1 ≠ [] :=
    h.1.mpr ⟨rfl, by norm_num [tClfAngry], by simp⟩
  ⟨hne, h.2.1 hne⟩


end Expressora
